import Mathlib

/-!
# Emoji Analyzer: the request/render controller of `static/script.js`

A shallow embedding of the `EmojiAnalyzer` class and of the global helper
`insertEmoji`, followed by theorems about them.

Modelling conventions.

* A JavaScript string is the list of its UTF-16 code units (`JSString`), so that
  `length`, `substring`, `trim` and the caret positions of a text field count
  what the source counts.
* The page is an explicit record (`Page`); every DOM element the controller looks
  up is optional, as `document.getElementById` may return `null`.
* The `async` method `analyzeText` is split at its suspension point: `analyzeBegin`
  is the part that runs before `fetch`, `analyzeComplete` the part that runs once
  the outcome of the request is known.
* A score is a non-negative IEEE-754 double, represented exactly by the natural
  number of units of `2^-1074` it holds.
-/

set_option exponentiation.threshold 2200

namespace EmojiAnalyzer

/-! ## Strings -/

/-- A JavaScript string: the sequence of its UTF-16 code units. -/
abbrev JSString := List Nat

/-- UTF-16 encoding of one code point. -/
def utf16 (c : Char) : List Nat :=
  if c.toNat < 0x10000 then [c.toNat]
  else [0xD800 + (c.toNat - 0x10000) / 0x400, 0xDC00 + (c.toNat - 0x10000) % 0x400]

/-- A string literal of the source, as a `JSString`. -/
def lit (s : String) : JSString := s.toList.flatMap utf16

/-- The code units `String.prototype.trim` strips: ECMAScript `WhiteSpace` and
`LineTerminator`. -/
def isWhiteSpace (c : Nat) : Bool :=
  c == 0x9 || c == 0xA || c == 0xB || c == 0xC || c == 0xD || c == 0x20 || c == 0xA0 ||
  c == 0x1680 || (0x2000 ≤ c && c ≤ 0x200A) || c == 0x2028 || c == 0x2029 ||
  c == 0x202F || c == 0x205F || c == 0x3000 || c == 0xFEFF

/-- `String.prototype.trim`. -/
def trim (s : JSString) : JSString :=
  ((s.dropWhile isWhiteSpace).reverse.dropWhile isWhiteSpace).reverse

/-- `String.prototype.substring(start, end)`: both arguments are clamped to the
length and swapped when out of order. -/
def substring (s : JSString) (a b : Nat) : JSString :=
  let a' := min a s.length
  let b' := min b s.length
  (s.take (max a' b')).drop (min a' b')

/-- `String.prototype.substring(start)`. -/
def substringFrom (s : JSString) (a : Nat) : JSString := substring s a s.length

/-- `String.prototype.slice(start)` for a non-negative start. -/
def slice (s : JSString) (a : Nat) : JSString := s.drop a

/-- `String.prototype.charAt`. -/
def charAt (s : JSString) (i : Nat) : JSString := (s.drop i).take 1

/-- Part 1 of the table of `toUpperCase`. -/
def upperCaseBlock0 : List (Nat × JSString) :=
  [(0xB5, [0x39C]), (0xDF, [0x53, 0x53]), (0xE0, [0xC0]), (0xE1, [0xC1]), (0xE2, [0xC2]), (0xE3, [0xC3]), (0xE4, [0xC4]), (0xE5, [0xC5]),
   (0xE6, [0xC6]), (0xE7, [0xC7]), (0xE8, [0xC8]), (0xE9, [0xC9]), (0xEA, [0xCA]), (0xEB, [0xCB]), (0xEC, [0xCC]), (0xED, [0xCD]),
   (0xEE, [0xCE]), (0xEF, [0xCF]), (0xF0, [0xD0]), (0xF1, [0xD1]), (0xF2, [0xD2]), (0xF3, [0xD3]), (0xF4, [0xD4]), (0xF5, [0xD5]),
   (0xF6, [0xD6]), (0xF8, [0xD8]), (0xF9, [0xD9]), (0xFA, [0xDA]), (0xFB, [0xDB]), (0xFC, [0xDC]), (0xFD, [0xDD]), (0xFE, [0xDE]),
   (0xFF, [0x178]), (0x101, [0x100]), (0x103, [0x102]), (0x105, [0x104]), (0x107, [0x106]), (0x109, [0x108]), (0x10B, [0x10A]), (0x10D, [0x10C]),
   (0x10F, [0x10E]), (0x111, [0x110]), (0x113, [0x112]), (0x115, [0x114]), (0x117, [0x116]), (0x119, [0x118]), (0x11B, [0x11A]), (0x11D, [0x11C]),
   (0x11F, [0x11E]), (0x121, [0x120]), (0x123, [0x122]), (0x125, [0x124]), (0x127, [0x126]), (0x129, [0x128]), (0x12B, [0x12A]), (0x12D, [0x12C]),
   (0x12F, [0x12E]), (0x131, [0x49]), (0x133, [0x132]), (0x135, [0x134]), (0x137, [0x136]), (0x13A, [0x139]), (0x13C, [0x13B]), (0x13E, [0x13D]),
   (0x140, [0x13F]), (0x142, [0x141]), (0x144, [0x143]), (0x146, [0x145]), (0x148, [0x147]), (0x149, [0x2BC, 0x4E]), (0x14B, [0x14A]), (0x14D, [0x14C]),
   (0x14F, [0x14E]), (0x151, [0x150]), (0x153, [0x152]), (0x155, [0x154]), (0x157, [0x156]), (0x159, [0x158]), (0x15B, [0x15A]), (0x15D, [0x15C]),
   (0x15F, [0x15E]), (0x161, [0x160]), (0x163, [0x162]), (0x165, [0x164]), (0x167, [0x166]), (0x169, [0x168]), (0x16B, [0x16A]), (0x16D, [0x16C]),
   (0x16F, [0x16E]), (0x171, [0x170]), (0x173, [0x172]), (0x175, [0x174]), (0x177, [0x176]), (0x17A, [0x179]), (0x17C, [0x17B]), (0x17E, [0x17D]),
   (0x17F, [0x53]), (0x180, [0x243]), (0x183, [0x182]), (0x185, [0x184]), (0x188, [0x187]), (0x18C, [0x18B]), (0x192, [0x191]), (0x195, [0x1F6]),
   (0x199, [0x198]), (0x19A, [0x23D]), (0x19E, [0x220]), (0x1A1, [0x1A0]), (0x1A3, [0x1A2]), (0x1A5, [0x1A4]), (0x1A8, [0x1A7]), (0x1AD, [0x1AC]),
   (0x1B0, [0x1AF]), (0x1B4, [0x1B3]), (0x1B6, [0x1B5]), (0x1B9, [0x1B8]), (0x1BD, [0x1BC]), (0x1BF, [0x1F7]), (0x1C5, [0x1C4]), (0x1C6, [0x1C4]),
   (0x1C8, [0x1C7]), (0x1C9, [0x1C7]), (0x1CB, [0x1CA]), (0x1CC, [0x1CA]), (0x1CE, [0x1CD]), (0x1D0, [0x1CF]), (0x1D2, [0x1D1]), (0x1D4, [0x1D3]),
   (0x1D6, [0x1D5]), (0x1D8, [0x1D7]), (0x1DA, [0x1D9]), (0x1DC, [0x1DB]), (0x1DD, [0x18E]), (0x1DF, [0x1DE]), (0x1E1, [0x1E0]), (0x1E3, [0x1E2]),
   (0x1E5, [0x1E4]), (0x1E7, [0x1E6]), (0x1E9, [0x1E8]), (0x1EB, [0x1EA]), (0x1ED, [0x1EC]), (0x1EF, [0x1EE]), (0x1F0, [0x4A, 0x30C]), (0x1F2, [0x1F1]),
   (0x1F3, [0x1F1]), (0x1F5, [0x1F4]), (0x1F9, [0x1F8]), (0x1FB, [0x1FA]), (0x1FD, [0x1FC]), (0x1FF, [0x1FE]), (0x201, [0x200]), (0x203, [0x202]),
   (0x205, [0x204]), (0x207, [0x206]), (0x209, [0x208]), (0x20B, [0x20A]), (0x20D, [0x20C]), (0x20F, [0x20E]), (0x211, [0x210]), (0x213, [0x212])]

/-- Part 2 of the table of `toUpperCase`. -/
def upperCaseBlock1 : List (Nat × JSString) :=
  [(0x215, [0x214]), (0x217, [0x216]), (0x219, [0x218]), (0x21B, [0x21A]), (0x21D, [0x21C]), (0x21F, [0x21E]), (0x223, [0x222]), (0x225, [0x224]),
   (0x227, [0x226]), (0x229, [0x228]), (0x22B, [0x22A]), (0x22D, [0x22C]), (0x22F, [0x22E]), (0x231, [0x230]), (0x233, [0x232]), (0x23C, [0x23B]),
   (0x23F, [0x2C7E]), (0x240, [0x2C7F]), (0x242, [0x241]), (0x247, [0x246]), (0x249, [0x248]), (0x24B, [0x24A]), (0x24D, [0x24C]), (0x24F, [0x24E]),
   (0x250, [0x2C6F]), (0x251, [0x2C6D]), (0x252, [0x2C70]), (0x253, [0x181]), (0x254, [0x186]), (0x256, [0x189]), (0x257, [0x18A]), (0x259, [0x18F]),
   (0x25B, [0x190]), (0x25C, [0xA7AB]), (0x260, [0x193]), (0x261, [0xA7AC]), (0x263, [0x194]), (0x265, [0xA78D]), (0x266, [0xA7AA]), (0x268, [0x197]),
   (0x269, [0x196]), (0x26A, [0xA7AE]), (0x26B, [0x2C62]), (0x26C, [0xA7AD]), (0x26F, [0x19C]), (0x271, [0x2C6E]), (0x272, [0x19D]), (0x275, [0x19F]),
   (0x27D, [0x2C64]), (0x280, [0x1A6]), (0x282, [0xA7C5]), (0x283, [0x1A9]), (0x287, [0xA7B1]), (0x288, [0x1AE]), (0x289, [0x244]), (0x28A, [0x1B1]),
   (0x28B, [0x1B2]), (0x28C, [0x245]), (0x292, [0x1B7]), (0x29D, [0xA7B2]), (0x29E, [0xA7B0]), (0x345, [0x399]), (0x371, [0x370]), (0x373, [0x372]),
   (0x377, [0x376]), (0x37B, [0x3FD]), (0x37C, [0x3FE]), (0x37D, [0x3FF]), (0x390, [0x399, 0x308, 0x301]), (0x3AC, [0x386]), (0x3AD, [0x388]), (0x3AE, [0x389]),
   (0x3AF, [0x38A]), (0x3B0, [0x3A5, 0x308, 0x301]), (0x3B1, [0x391]), (0x3B2, [0x392]), (0x3B3, [0x393]), (0x3B4, [0x394]), (0x3B5, [0x395]), (0x3B6, [0x396]),
   (0x3B7, [0x397]), (0x3B8, [0x398]), (0x3B9, [0x399]), (0x3BA, [0x39A]), (0x3BB, [0x39B]), (0x3BC, [0x39C]), (0x3BD, [0x39D]), (0x3BE, [0x39E]),
   (0x3BF, [0x39F]), (0x3C0, [0x3A0]), (0x3C1, [0x3A1]), (0x3C2, [0x3A3]), (0x3C3, [0x3A3]), (0x3C4, [0x3A4]), (0x3C5, [0x3A5]), (0x3C6, [0x3A6]),
   (0x3C7, [0x3A7]), (0x3C8, [0x3A8]), (0x3C9, [0x3A9]), (0x3CA, [0x3AA]), (0x3CB, [0x3AB]), (0x3CC, [0x38C]), (0x3CD, [0x38E]), (0x3CE, [0x38F]),
   (0x3D0, [0x392]), (0x3D1, [0x398]), (0x3D5, [0x3A6]), (0x3D6, [0x3A0]), (0x3D7, [0x3CF]), (0x3D9, [0x3D8]), (0x3DB, [0x3DA]), (0x3DD, [0x3DC]),
   (0x3DF, [0x3DE]), (0x3E1, [0x3E0]), (0x3E3, [0x3E2]), (0x3E5, [0x3E4]), (0x3E7, [0x3E6]), (0x3E9, [0x3E8]), (0x3EB, [0x3EA]), (0x3ED, [0x3EC]),
   (0x3EF, [0x3EE]), (0x3F0, [0x39A]), (0x3F1, [0x3A1]), (0x3F2, [0x3F9]), (0x3F3, [0x37F]), (0x3F5, [0x395]), (0x3F8, [0x3F7]), (0x3FB, [0x3FA]),
   (0x430, [0x410]), (0x431, [0x411]), (0x432, [0x412]), (0x433, [0x413]), (0x434, [0x414]), (0x435, [0x415]), (0x436, [0x416]), (0x437, [0x417]),
   (0x438, [0x418]), (0x439, [0x419]), (0x43A, [0x41A]), (0x43B, [0x41B]), (0x43C, [0x41C]), (0x43D, [0x41D]), (0x43E, [0x41E]), (0x43F, [0x41F]),
   (0x440, [0x420]), (0x441, [0x421]), (0x442, [0x422]), (0x443, [0x423]), (0x444, [0x424]), (0x445, [0x425]), (0x446, [0x426]), (0x447, [0x427]),
   (0x448, [0x428]), (0x449, [0x429]), (0x44A, [0x42A]), (0x44B, [0x42B]), (0x44C, [0x42C]), (0x44D, [0x42D]), (0x44E, [0x42E]), (0x44F, [0x42F])]

/-- Part 3 of the table of `toUpperCase`. -/
def upperCaseBlock2 : List (Nat × JSString) :=
  [(0x450, [0x400]), (0x451, [0x401]), (0x452, [0x402]), (0x453, [0x403]), (0x454, [0x404]), (0x455, [0x405]), (0x456, [0x406]), (0x457, [0x407]),
   (0x458, [0x408]), (0x459, [0x409]), (0x45A, [0x40A]), (0x45B, [0x40B]), (0x45C, [0x40C]), (0x45D, [0x40D]), (0x45E, [0x40E]), (0x45F, [0x40F]),
   (0x461, [0x460]), (0x463, [0x462]), (0x465, [0x464]), (0x467, [0x466]), (0x469, [0x468]), (0x46B, [0x46A]), (0x46D, [0x46C]), (0x46F, [0x46E]),
   (0x471, [0x470]), (0x473, [0x472]), (0x475, [0x474]), (0x477, [0x476]), (0x479, [0x478]), (0x47B, [0x47A]), (0x47D, [0x47C]), (0x47F, [0x47E]),
   (0x481, [0x480]), (0x48B, [0x48A]), (0x48D, [0x48C]), (0x48F, [0x48E]), (0x491, [0x490]), (0x493, [0x492]), (0x495, [0x494]), (0x497, [0x496]),
   (0x499, [0x498]), (0x49B, [0x49A]), (0x49D, [0x49C]), (0x49F, [0x49E]), (0x4A1, [0x4A0]), (0x4A3, [0x4A2]), (0x4A5, [0x4A4]), (0x4A7, [0x4A6]),
   (0x4A9, [0x4A8]), (0x4AB, [0x4AA]), (0x4AD, [0x4AC]), (0x4AF, [0x4AE]), (0x4B1, [0x4B0]), (0x4B3, [0x4B2]), (0x4B5, [0x4B4]), (0x4B7, [0x4B6]),
   (0x4B9, [0x4B8]), (0x4BB, [0x4BA]), (0x4BD, [0x4BC]), (0x4BF, [0x4BE]), (0x4C2, [0x4C1]), (0x4C4, [0x4C3]), (0x4C6, [0x4C5]), (0x4C8, [0x4C7]),
   (0x4CA, [0x4C9]), (0x4CC, [0x4CB]), (0x4CE, [0x4CD]), (0x4CF, [0x4C0]), (0x4D1, [0x4D0]), (0x4D3, [0x4D2]), (0x4D5, [0x4D4]), (0x4D7, [0x4D6]),
   (0x4D9, [0x4D8]), (0x4DB, [0x4DA]), (0x4DD, [0x4DC]), (0x4DF, [0x4DE]), (0x4E1, [0x4E0]), (0x4E3, [0x4E2]), (0x4E5, [0x4E4]), (0x4E7, [0x4E6]),
   (0x4E9, [0x4E8]), (0x4EB, [0x4EA]), (0x4ED, [0x4EC]), (0x4EF, [0x4EE]), (0x4F1, [0x4F0]), (0x4F3, [0x4F2]), (0x4F5, [0x4F4]), (0x4F7, [0x4F6]),
   (0x4F9, [0x4F8]), (0x4FB, [0x4FA]), (0x4FD, [0x4FC]), (0x4FF, [0x4FE]), (0x501, [0x500]), (0x503, [0x502]), (0x505, [0x504]), (0x507, [0x506]),
   (0x509, [0x508]), (0x50B, [0x50A]), (0x50D, [0x50C]), (0x50F, [0x50E]), (0x511, [0x510]), (0x513, [0x512]), (0x515, [0x514]), (0x517, [0x516]),
   (0x519, [0x518]), (0x51B, [0x51A]), (0x51D, [0x51C]), (0x51F, [0x51E]), (0x521, [0x520]), (0x523, [0x522]), (0x525, [0x524]), (0x527, [0x526]),
   (0x529, [0x528]), (0x52B, [0x52A]), (0x52D, [0x52C]), (0x52F, [0x52E]), (0x561, [0x531]), (0x562, [0x532]), (0x563, [0x533]), (0x564, [0x534]),
   (0x565, [0x535]), (0x566, [0x536]), (0x567, [0x537]), (0x568, [0x538]), (0x569, [0x539]), (0x56A, [0x53A]), (0x56B, [0x53B]), (0x56C, [0x53C]),
   (0x56D, [0x53D]), (0x56E, [0x53E]), (0x56F, [0x53F]), (0x570, [0x540]), (0x571, [0x541]), (0x572, [0x542]), (0x573, [0x543]), (0x574, [0x544]),
   (0x575, [0x545]), (0x576, [0x546]), (0x577, [0x547]), (0x578, [0x548]), (0x579, [0x549]), (0x57A, [0x54A]), (0x57B, [0x54B]), (0x57C, [0x54C]),
   (0x57D, [0x54D]), (0x57E, [0x54E]), (0x57F, [0x54F]), (0x580, [0x550]), (0x581, [0x551]), (0x582, [0x552]), (0x583, [0x553]), (0x584, [0x554]),
   (0x585, [0x555]), (0x586, [0x556]), (0x587, [0x535, 0x552]), (0x10D0, [0x1C90]), (0x10D1, [0x1C91]), (0x10D2, [0x1C92]), (0x10D3, [0x1C93]), (0x10D4, [0x1C94])]

/-- Part 4 of the table of `toUpperCase`. -/
def upperCaseBlock3 : List (Nat × JSString) :=
  [(0x10D5, [0x1C95]), (0x10D6, [0x1C96]), (0x10D7, [0x1C97]), (0x10D8, [0x1C98]), (0x10D9, [0x1C99]), (0x10DA, [0x1C9A]), (0x10DB, [0x1C9B]), (0x10DC, [0x1C9C]),
   (0x10DD, [0x1C9D]), (0x10DE, [0x1C9E]), (0x10DF, [0x1C9F]), (0x10E0, [0x1CA0]), (0x10E1, [0x1CA1]), (0x10E2, [0x1CA2]), (0x10E3, [0x1CA3]), (0x10E4, [0x1CA4]),
   (0x10E5, [0x1CA5]), (0x10E6, [0x1CA6]), (0x10E7, [0x1CA7]), (0x10E8, [0x1CA8]), (0x10E9, [0x1CA9]), (0x10EA, [0x1CAA]), (0x10EB, [0x1CAB]), (0x10EC, [0x1CAC]),
   (0x10ED, [0x1CAD]), (0x10EE, [0x1CAE]), (0x10EF, [0x1CAF]), (0x10F0, [0x1CB0]), (0x10F1, [0x1CB1]), (0x10F2, [0x1CB2]), (0x10F3, [0x1CB3]), (0x10F4, [0x1CB4]),
   (0x10F5, [0x1CB5]), (0x10F6, [0x1CB6]), (0x10F7, [0x1CB7]), (0x10F8, [0x1CB8]), (0x10F9, [0x1CB9]), (0x10FA, [0x1CBA]), (0x10FD, [0x1CBD]), (0x10FE, [0x1CBE]),
   (0x10FF, [0x1CBF]), (0x13F8, [0x13F0]), (0x13F9, [0x13F1]), (0x13FA, [0x13F2]), (0x13FB, [0x13F3]), (0x13FC, [0x13F4]), (0x13FD, [0x13F5]), (0x1C80, [0x412]),
   (0x1C81, [0x414]), (0x1C82, [0x41E]), (0x1C83, [0x421]), (0x1C84, [0x422]), (0x1C85, [0x422]), (0x1C86, [0x42A]), (0x1C87, [0x462]), (0x1C88, [0xA64A]),
   (0x1D79, [0xA77D]), (0x1D7D, [0x2C63]), (0x1D8E, [0xA7C6]), (0x1E01, [0x1E00]), (0x1E03, [0x1E02]), (0x1E05, [0x1E04]), (0x1E07, [0x1E06]), (0x1E09, [0x1E08]),
   (0x1E0B, [0x1E0A]), (0x1E0D, [0x1E0C]), (0x1E0F, [0x1E0E]), (0x1E11, [0x1E10]), (0x1E13, [0x1E12]), (0x1E15, [0x1E14]), (0x1E17, [0x1E16]), (0x1E19, [0x1E18]),
   (0x1E1B, [0x1E1A]), (0x1E1D, [0x1E1C]), (0x1E1F, [0x1E1E]), (0x1E21, [0x1E20]), (0x1E23, [0x1E22]), (0x1E25, [0x1E24]), (0x1E27, [0x1E26]), (0x1E29, [0x1E28]),
   (0x1E2B, [0x1E2A]), (0x1E2D, [0x1E2C]), (0x1E2F, [0x1E2E]), (0x1E31, [0x1E30]), (0x1E33, [0x1E32]), (0x1E35, [0x1E34]), (0x1E37, [0x1E36]), (0x1E39, [0x1E38]),
   (0x1E3B, [0x1E3A]), (0x1E3D, [0x1E3C]), (0x1E3F, [0x1E3E]), (0x1E41, [0x1E40]), (0x1E43, [0x1E42]), (0x1E45, [0x1E44]), (0x1E47, [0x1E46]), (0x1E49, [0x1E48]),
   (0x1E4B, [0x1E4A]), (0x1E4D, [0x1E4C]), (0x1E4F, [0x1E4E]), (0x1E51, [0x1E50]), (0x1E53, [0x1E52]), (0x1E55, [0x1E54]), (0x1E57, [0x1E56]), (0x1E59, [0x1E58]),
   (0x1E5B, [0x1E5A]), (0x1E5D, [0x1E5C]), (0x1E5F, [0x1E5E]), (0x1E61, [0x1E60]), (0x1E63, [0x1E62]), (0x1E65, [0x1E64]), (0x1E67, [0x1E66]), (0x1E69, [0x1E68]),
   (0x1E6B, [0x1E6A]), (0x1E6D, [0x1E6C]), (0x1E6F, [0x1E6E]), (0x1E71, [0x1E70]), (0x1E73, [0x1E72]), (0x1E75, [0x1E74]), (0x1E77, [0x1E76]), (0x1E79, [0x1E78]),
   (0x1E7B, [0x1E7A]), (0x1E7D, [0x1E7C]), (0x1E7F, [0x1E7E]), (0x1E81, [0x1E80]), (0x1E83, [0x1E82]), (0x1E85, [0x1E84]), (0x1E87, [0x1E86]), (0x1E89, [0x1E88]),
   (0x1E8B, [0x1E8A]), (0x1E8D, [0x1E8C]), (0x1E8F, [0x1E8E]), (0x1E91, [0x1E90]), (0x1E93, [0x1E92]), (0x1E95, [0x1E94]), (0x1E96, [0x48, 0x331]), (0x1E97, [0x54, 0x308]),
   (0x1E98, [0x57, 0x30A]), (0x1E99, [0x59, 0x30A]), (0x1E9A, [0x41, 0x2BE]), (0x1E9B, [0x1E60]), (0x1EA1, [0x1EA0]), (0x1EA3, [0x1EA2]), (0x1EA5, [0x1EA4]), (0x1EA7, [0x1EA6]),
   (0x1EA9, [0x1EA8]), (0x1EAB, [0x1EAA]), (0x1EAD, [0x1EAC]), (0x1EAF, [0x1EAE]), (0x1EB1, [0x1EB0]), (0x1EB3, [0x1EB2]), (0x1EB5, [0x1EB4]), (0x1EB7, [0x1EB6]),
   (0x1EB9, [0x1EB8]), (0x1EBB, [0x1EBA]), (0x1EBD, [0x1EBC]), (0x1EBF, [0x1EBE]), (0x1EC1, [0x1EC0]), (0x1EC3, [0x1EC2]), (0x1EC5, [0x1EC4]), (0x1EC7, [0x1EC6])]

/-- Part 5 of the table of `toUpperCase`. -/
def upperCaseBlock4 : List (Nat × JSString) :=
  [(0x1EC9, [0x1EC8]), (0x1ECB, [0x1ECA]), (0x1ECD, [0x1ECC]), (0x1ECF, [0x1ECE]), (0x1ED1, [0x1ED0]), (0x1ED3, [0x1ED2]), (0x1ED5, [0x1ED4]), (0x1ED7, [0x1ED6]),
   (0x1ED9, [0x1ED8]), (0x1EDB, [0x1EDA]), (0x1EDD, [0x1EDC]), (0x1EDF, [0x1EDE]), (0x1EE1, [0x1EE0]), (0x1EE3, [0x1EE2]), (0x1EE5, [0x1EE4]), (0x1EE7, [0x1EE6]),
   (0x1EE9, [0x1EE8]), (0x1EEB, [0x1EEA]), (0x1EED, [0x1EEC]), (0x1EEF, [0x1EEE]), (0x1EF1, [0x1EF0]), (0x1EF3, [0x1EF2]), (0x1EF5, [0x1EF4]), (0x1EF7, [0x1EF6]),
   (0x1EF9, [0x1EF8]), (0x1EFB, [0x1EFA]), (0x1EFD, [0x1EFC]), (0x1EFF, [0x1EFE]), (0x1F00, [0x1F08]), (0x1F01, [0x1F09]), (0x1F02, [0x1F0A]), (0x1F03, [0x1F0B]),
   (0x1F04, [0x1F0C]), (0x1F05, [0x1F0D]), (0x1F06, [0x1F0E]), (0x1F07, [0x1F0F]), (0x1F10, [0x1F18]), (0x1F11, [0x1F19]), (0x1F12, [0x1F1A]), (0x1F13, [0x1F1B]),
   (0x1F14, [0x1F1C]), (0x1F15, [0x1F1D]), (0x1F20, [0x1F28]), (0x1F21, [0x1F29]), (0x1F22, [0x1F2A]), (0x1F23, [0x1F2B]), (0x1F24, [0x1F2C]), (0x1F25, [0x1F2D]),
   (0x1F26, [0x1F2E]), (0x1F27, [0x1F2F]), (0x1F30, [0x1F38]), (0x1F31, [0x1F39]), (0x1F32, [0x1F3A]), (0x1F33, [0x1F3B]), (0x1F34, [0x1F3C]), (0x1F35, [0x1F3D]),
   (0x1F36, [0x1F3E]), (0x1F37, [0x1F3F]), (0x1F40, [0x1F48]), (0x1F41, [0x1F49]), (0x1F42, [0x1F4A]), (0x1F43, [0x1F4B]), (0x1F44, [0x1F4C]), (0x1F45, [0x1F4D]),
   (0x1F50, [0x3A5, 0x313]), (0x1F51, [0x1F59]), (0x1F52, [0x3A5, 0x313, 0x300]), (0x1F53, [0x1F5B]), (0x1F54, [0x3A5, 0x313, 0x301]), (0x1F55, [0x1F5D]), (0x1F56, [0x3A5, 0x313, 0x342]), (0x1F57, [0x1F5F]),
   (0x1F60, [0x1F68]), (0x1F61, [0x1F69]), (0x1F62, [0x1F6A]), (0x1F63, [0x1F6B]), (0x1F64, [0x1F6C]), (0x1F65, [0x1F6D]), (0x1F66, [0x1F6E]), (0x1F67, [0x1F6F]),
   (0x1F70, [0x1FBA]), (0x1F71, [0x1FBB]), (0x1F72, [0x1FC8]), (0x1F73, [0x1FC9]), (0x1F74, [0x1FCA]), (0x1F75, [0x1FCB]), (0x1F76, [0x1FDA]), (0x1F77, [0x1FDB]),
   (0x1F78, [0x1FF8]), (0x1F79, [0x1FF9]), (0x1F7A, [0x1FEA]), (0x1F7B, [0x1FEB]), (0x1F7C, [0x1FFA]), (0x1F7D, [0x1FFB]), (0x1F80, [0x1F08, 0x399]), (0x1F81, [0x1F09, 0x399]),
   (0x1F82, [0x1F0A, 0x399]), (0x1F83, [0x1F0B, 0x399]), (0x1F84, [0x1F0C, 0x399]), (0x1F85, [0x1F0D, 0x399]), (0x1F86, [0x1F0E, 0x399]), (0x1F87, [0x1F0F, 0x399]), (0x1F88, [0x1F08, 0x399]), (0x1F89, [0x1F09, 0x399]),
   (0x1F8A, [0x1F0A, 0x399]), (0x1F8B, [0x1F0B, 0x399]), (0x1F8C, [0x1F0C, 0x399]), (0x1F8D, [0x1F0D, 0x399]), (0x1F8E, [0x1F0E, 0x399]), (0x1F8F, [0x1F0F, 0x399]), (0x1F90, [0x1F28, 0x399]), (0x1F91, [0x1F29, 0x399]),
   (0x1F92, [0x1F2A, 0x399]), (0x1F93, [0x1F2B, 0x399]), (0x1F94, [0x1F2C, 0x399]), (0x1F95, [0x1F2D, 0x399]), (0x1F96, [0x1F2E, 0x399]), (0x1F97, [0x1F2F, 0x399]), (0x1F98, [0x1F28, 0x399]), (0x1F99, [0x1F29, 0x399]),
   (0x1F9A, [0x1F2A, 0x399]), (0x1F9B, [0x1F2B, 0x399]), (0x1F9C, [0x1F2C, 0x399]), (0x1F9D, [0x1F2D, 0x399]), (0x1F9E, [0x1F2E, 0x399]), (0x1F9F, [0x1F2F, 0x399]), (0x1FA0, [0x1F68, 0x399]), (0x1FA1, [0x1F69, 0x399]),
   (0x1FA2, [0x1F6A, 0x399]), (0x1FA3, [0x1F6B, 0x399]), (0x1FA4, [0x1F6C, 0x399]), (0x1FA5, [0x1F6D, 0x399]), (0x1FA6, [0x1F6E, 0x399]), (0x1FA7, [0x1F6F, 0x399]), (0x1FA8, [0x1F68, 0x399]), (0x1FA9, [0x1F69, 0x399]),
   (0x1FAA, [0x1F6A, 0x399]), (0x1FAB, [0x1F6B, 0x399]), (0x1FAC, [0x1F6C, 0x399]), (0x1FAD, [0x1F6D, 0x399]), (0x1FAE, [0x1F6E, 0x399]), (0x1FAF, [0x1F6F, 0x399]), (0x1FB0, [0x1FB8]), (0x1FB1, [0x1FB9]),
   (0x1FB2, [0x1FBA, 0x399]), (0x1FB3, [0x391, 0x399]), (0x1FB4, [0x386, 0x399]), (0x1FB6, [0x391, 0x342]), (0x1FB7, [0x391, 0x342, 0x399]), (0x1FBC, [0x391, 0x399]), (0x1FBE, [0x399]), (0x1FC2, [0x1FCA, 0x399]),
   (0x1FC3, [0x397, 0x399]), (0x1FC4, [0x389, 0x399]), (0x1FC6, [0x397, 0x342]), (0x1FC7, [0x397, 0x342, 0x399]), (0x1FCC, [0x397, 0x399]), (0x1FD0, [0x1FD8]), (0x1FD1, [0x1FD9]), (0x1FD2, [0x399, 0x308, 0x300])]

/-- Part 6 of the table of `toUpperCase`. -/
def upperCaseBlock5 : List (Nat × JSString) :=
  [(0x1FD3, [0x399, 0x308, 0x301]), (0x1FD6, [0x399, 0x342]), (0x1FD7, [0x399, 0x308, 0x342]), (0x1FE0, [0x1FE8]), (0x1FE1, [0x1FE9]), (0x1FE2, [0x3A5, 0x308, 0x300]), (0x1FE3, [0x3A5, 0x308, 0x301]), (0x1FE4, [0x3A1, 0x313]),
   (0x1FE5, [0x1FEC]), (0x1FE6, [0x3A5, 0x342]), (0x1FE7, [0x3A5, 0x308, 0x342]), (0x1FF2, [0x1FFA, 0x399]), (0x1FF3, [0x3A9, 0x399]), (0x1FF4, [0x38F, 0x399]), (0x1FF6, [0x3A9, 0x342]), (0x1FF7, [0x3A9, 0x342, 0x399]),
   (0x1FFC, [0x3A9, 0x399]), (0x214E, [0x2132]), (0x2170, [0x2160]), (0x2171, [0x2161]), (0x2172, [0x2162]), (0x2173, [0x2163]), (0x2174, [0x2164]), (0x2175, [0x2165]),
   (0x2176, [0x2166]), (0x2177, [0x2167]), (0x2178, [0x2168]), (0x2179, [0x2169]), (0x217A, [0x216A]), (0x217B, [0x216B]), (0x217C, [0x216C]), (0x217D, [0x216D]),
   (0x217E, [0x216E]), (0x217F, [0x216F]), (0x2184, [0x2183]), (0x24D0, [0x24B6]), (0x24D1, [0x24B7]), (0x24D2, [0x24B8]), (0x24D3, [0x24B9]), (0x24D4, [0x24BA]),
   (0x24D5, [0x24BB]), (0x24D6, [0x24BC]), (0x24D7, [0x24BD]), (0x24D8, [0x24BE]), (0x24D9, [0x24BF]), (0x24DA, [0x24C0]), (0x24DB, [0x24C1]), (0x24DC, [0x24C2]),
   (0x24DD, [0x24C3]), (0x24DE, [0x24C4]), (0x24DF, [0x24C5]), (0x24E0, [0x24C6]), (0x24E1, [0x24C7]), (0x24E2, [0x24C8]), (0x24E3, [0x24C9]), (0x24E4, [0x24CA]),
   (0x24E5, [0x24CB]), (0x24E6, [0x24CC]), (0x24E7, [0x24CD]), (0x24E8, [0x24CE]), (0x24E9, [0x24CF]), (0x2C30, [0x2C00]), (0x2C31, [0x2C01]), (0x2C32, [0x2C02]),
   (0x2C33, [0x2C03]), (0x2C34, [0x2C04]), (0x2C35, [0x2C05]), (0x2C36, [0x2C06]), (0x2C37, [0x2C07]), (0x2C38, [0x2C08]), (0x2C39, [0x2C09]), (0x2C3A, [0x2C0A]),
   (0x2C3B, [0x2C0B]), (0x2C3C, [0x2C0C]), (0x2C3D, [0x2C0D]), (0x2C3E, [0x2C0E]), (0x2C3F, [0x2C0F]), (0x2C40, [0x2C10]), (0x2C41, [0x2C11]), (0x2C42, [0x2C12]),
   (0x2C43, [0x2C13]), (0x2C44, [0x2C14]), (0x2C45, [0x2C15]), (0x2C46, [0x2C16]), (0x2C47, [0x2C17]), (0x2C48, [0x2C18]), (0x2C49, [0x2C19]), (0x2C4A, [0x2C1A]),
   (0x2C4B, [0x2C1B]), (0x2C4C, [0x2C1C]), (0x2C4D, [0x2C1D]), (0x2C4E, [0x2C1E]), (0x2C4F, [0x2C1F]), (0x2C50, [0x2C20]), (0x2C51, [0x2C21]), (0x2C52, [0x2C22]),
   (0x2C53, [0x2C23]), (0x2C54, [0x2C24]), (0x2C55, [0x2C25]), (0x2C56, [0x2C26]), (0x2C57, [0x2C27]), (0x2C58, [0x2C28]), (0x2C59, [0x2C29]), (0x2C5A, [0x2C2A]),
   (0x2C5B, [0x2C2B]), (0x2C5C, [0x2C2C]), (0x2C5D, [0x2C2D]), (0x2C5E, [0x2C2E]), (0x2C5F, [0x2C2F]), (0x2C61, [0x2C60]), (0x2C65, [0x23A]), (0x2C66, [0x23E]),
   (0x2C68, [0x2C67]), (0x2C6A, [0x2C69]), (0x2C6C, [0x2C6B]), (0x2C73, [0x2C72]), (0x2C76, [0x2C75]), (0x2C81, [0x2C80]), (0x2C83, [0x2C82]), (0x2C85, [0x2C84]),
   (0x2C87, [0x2C86]), (0x2C89, [0x2C88]), (0x2C8B, [0x2C8A]), (0x2C8D, [0x2C8C]), (0x2C8F, [0x2C8E]), (0x2C91, [0x2C90]), (0x2C93, [0x2C92]), (0x2C95, [0x2C94]),
   (0x2C97, [0x2C96]), (0x2C99, [0x2C98]), (0x2C9B, [0x2C9A]), (0x2C9D, [0x2C9C]), (0x2C9F, [0x2C9E]), (0x2CA1, [0x2CA0]), (0x2CA3, [0x2CA2]), (0x2CA5, [0x2CA4]),
   (0x2CA7, [0x2CA6]), (0x2CA9, [0x2CA8]), (0x2CAB, [0x2CAA]), (0x2CAD, [0x2CAC]), (0x2CAF, [0x2CAE]), (0x2CB1, [0x2CB0]), (0x2CB3, [0x2CB2]), (0x2CB5, [0x2CB4]),
   (0x2CB7, [0x2CB6]), (0x2CB9, [0x2CB8]), (0x2CBB, [0x2CBA]), (0x2CBD, [0x2CBC]), (0x2CBF, [0x2CBE]), (0x2CC1, [0x2CC0]), (0x2CC3, [0x2CC2]), (0x2CC5, [0x2CC4]),
   (0x2CC7, [0x2CC6]), (0x2CC9, [0x2CC8]), (0x2CCB, [0x2CCA]), (0x2CCD, [0x2CCC]), (0x2CCF, [0x2CCE]), (0x2CD1, [0x2CD0]), (0x2CD3, [0x2CD2]), (0x2CD5, [0x2CD4])]

/-- Part 7 of the table of `toUpperCase`. -/
def upperCaseBlock6 : List (Nat × JSString) :=
  [(0x2CD7, [0x2CD6]), (0x2CD9, [0x2CD8]), (0x2CDB, [0x2CDA]), (0x2CDD, [0x2CDC]), (0x2CDF, [0x2CDE]), (0x2CE1, [0x2CE0]), (0x2CE3, [0x2CE2]), (0x2CEC, [0x2CEB]),
   (0x2CEE, [0x2CED]), (0x2CF3, [0x2CF2]), (0x2D00, [0x10A0]), (0x2D01, [0x10A1]), (0x2D02, [0x10A2]), (0x2D03, [0x10A3]), (0x2D04, [0x10A4]), (0x2D05, [0x10A5]),
   (0x2D06, [0x10A6]), (0x2D07, [0x10A7]), (0x2D08, [0x10A8]), (0x2D09, [0x10A9]), (0x2D0A, [0x10AA]), (0x2D0B, [0x10AB]), (0x2D0C, [0x10AC]), (0x2D0D, [0x10AD]),
   (0x2D0E, [0x10AE]), (0x2D0F, [0x10AF]), (0x2D10, [0x10B0]), (0x2D11, [0x10B1]), (0x2D12, [0x10B2]), (0x2D13, [0x10B3]), (0x2D14, [0x10B4]), (0x2D15, [0x10B5]),
   (0x2D16, [0x10B6]), (0x2D17, [0x10B7]), (0x2D18, [0x10B8]), (0x2D19, [0x10B9]), (0x2D1A, [0x10BA]), (0x2D1B, [0x10BB]), (0x2D1C, [0x10BC]), (0x2D1D, [0x10BD]),
   (0x2D1E, [0x10BE]), (0x2D1F, [0x10BF]), (0x2D20, [0x10C0]), (0x2D21, [0x10C1]), (0x2D22, [0x10C2]), (0x2D23, [0x10C3]), (0x2D24, [0x10C4]), (0x2D25, [0x10C5]),
   (0x2D27, [0x10C7]), (0x2D2D, [0x10CD]), (0xA641, [0xA640]), (0xA643, [0xA642]), (0xA645, [0xA644]), (0xA647, [0xA646]), (0xA649, [0xA648]), (0xA64B, [0xA64A]),
   (0xA64D, [0xA64C]), (0xA64F, [0xA64E]), (0xA651, [0xA650]), (0xA653, [0xA652]), (0xA655, [0xA654]), (0xA657, [0xA656]), (0xA659, [0xA658]), (0xA65B, [0xA65A]),
   (0xA65D, [0xA65C]), (0xA65F, [0xA65E]), (0xA661, [0xA660]), (0xA663, [0xA662]), (0xA665, [0xA664]), (0xA667, [0xA666]), (0xA669, [0xA668]), (0xA66B, [0xA66A]),
   (0xA66D, [0xA66C]), (0xA681, [0xA680]), (0xA683, [0xA682]), (0xA685, [0xA684]), (0xA687, [0xA686]), (0xA689, [0xA688]), (0xA68B, [0xA68A]), (0xA68D, [0xA68C]),
   (0xA68F, [0xA68E]), (0xA691, [0xA690]), (0xA693, [0xA692]), (0xA695, [0xA694]), (0xA697, [0xA696]), (0xA699, [0xA698]), (0xA69B, [0xA69A]), (0xA723, [0xA722]),
   (0xA725, [0xA724]), (0xA727, [0xA726]), (0xA729, [0xA728]), (0xA72B, [0xA72A]), (0xA72D, [0xA72C]), (0xA72F, [0xA72E]), (0xA733, [0xA732]), (0xA735, [0xA734]),
   (0xA737, [0xA736]), (0xA739, [0xA738]), (0xA73B, [0xA73A]), (0xA73D, [0xA73C]), (0xA73F, [0xA73E]), (0xA741, [0xA740]), (0xA743, [0xA742]), (0xA745, [0xA744]),
   (0xA747, [0xA746]), (0xA749, [0xA748]), (0xA74B, [0xA74A]), (0xA74D, [0xA74C]), (0xA74F, [0xA74E]), (0xA751, [0xA750]), (0xA753, [0xA752]), (0xA755, [0xA754]),
   (0xA757, [0xA756]), (0xA759, [0xA758]), (0xA75B, [0xA75A]), (0xA75D, [0xA75C]), (0xA75F, [0xA75E]), (0xA761, [0xA760]), (0xA763, [0xA762]), (0xA765, [0xA764]),
   (0xA767, [0xA766]), (0xA769, [0xA768]), (0xA76B, [0xA76A]), (0xA76D, [0xA76C]), (0xA76F, [0xA76E]), (0xA77A, [0xA779]), (0xA77C, [0xA77B]), (0xA77F, [0xA77E]),
   (0xA781, [0xA780]), (0xA783, [0xA782]), (0xA785, [0xA784]), (0xA787, [0xA786]), (0xA78C, [0xA78B]), (0xA791, [0xA790]), (0xA793, [0xA792]), (0xA794, [0xA7C4]),
   (0xA797, [0xA796]), (0xA799, [0xA798]), (0xA79B, [0xA79A]), (0xA79D, [0xA79C]), (0xA79F, [0xA79E]), (0xA7A1, [0xA7A0]), (0xA7A3, [0xA7A2]), (0xA7A5, [0xA7A4]),
   (0xA7A7, [0xA7A6]), (0xA7A9, [0xA7A8]), (0xA7B5, [0xA7B4]), (0xA7B7, [0xA7B6]), (0xA7B9, [0xA7B8]), (0xA7BB, [0xA7BA]), (0xA7BD, [0xA7BC]), (0xA7BF, [0xA7BE]),
   (0xA7C1, [0xA7C0]), (0xA7C3, [0xA7C2]), (0xA7C8, [0xA7C7]), (0xA7CA, [0xA7C9]), (0xA7D1, [0xA7D0]), (0xA7D7, [0xA7D6]), (0xA7D9, [0xA7D8]), (0xA7F6, [0xA7F5])]

/-- Part 8 of the table of `toUpperCase`. -/
def upperCaseBlock7 : List (Nat × JSString) :=
  [(0xAB53, [0xA7B3]), (0xAB70, [0x13A0]), (0xAB71, [0x13A1]), (0xAB72, [0x13A2]), (0xAB73, [0x13A3]), (0xAB74, [0x13A4]), (0xAB75, [0x13A5]), (0xAB76, [0x13A6]),
   (0xAB77, [0x13A7]), (0xAB78, [0x13A8]), (0xAB79, [0x13A9]), (0xAB7A, [0x13AA]), (0xAB7B, [0x13AB]), (0xAB7C, [0x13AC]), (0xAB7D, [0x13AD]), (0xAB7E, [0x13AE]),
   (0xAB7F, [0x13AF]), (0xAB80, [0x13B0]), (0xAB81, [0x13B1]), (0xAB82, [0x13B2]), (0xAB83, [0x13B3]), (0xAB84, [0x13B4]), (0xAB85, [0x13B5]), (0xAB86, [0x13B6]),
   (0xAB87, [0x13B7]), (0xAB88, [0x13B8]), (0xAB89, [0x13B9]), (0xAB8A, [0x13BA]), (0xAB8B, [0x13BB]), (0xAB8C, [0x13BC]), (0xAB8D, [0x13BD]), (0xAB8E, [0x13BE]),
   (0xAB8F, [0x13BF]), (0xAB90, [0x13C0]), (0xAB91, [0x13C1]), (0xAB92, [0x13C2]), (0xAB93, [0x13C3]), (0xAB94, [0x13C4]), (0xAB95, [0x13C5]), (0xAB96, [0x13C6]),
   (0xAB97, [0x13C7]), (0xAB98, [0x13C8]), (0xAB99, [0x13C9]), (0xAB9A, [0x13CA]), (0xAB9B, [0x13CB]), (0xAB9C, [0x13CC]), (0xAB9D, [0x13CD]), (0xAB9E, [0x13CE]),
   (0xAB9F, [0x13CF]), (0xABA0, [0x13D0]), (0xABA1, [0x13D1]), (0xABA2, [0x13D2]), (0xABA3, [0x13D3]), (0xABA4, [0x13D4]), (0xABA5, [0x13D5]), (0xABA6, [0x13D6]),
   (0xABA7, [0x13D7]), (0xABA8, [0x13D8]), (0xABA9, [0x13D9]), (0xABAA, [0x13DA]), (0xABAB, [0x13DB]), (0xABAC, [0x13DC]), (0xABAD, [0x13DD]), (0xABAE, [0x13DE]),
   (0xABAF, [0x13DF]), (0xABB0, [0x13E0]), (0xABB1, [0x13E1]), (0xABB2, [0x13E2]), (0xABB3, [0x13E3]), (0xABB4, [0x13E4]), (0xABB5, [0x13E5]), (0xABB6, [0x13E6]),
   (0xABB7, [0x13E7]), (0xABB8, [0x13E8]), (0xABB9, [0x13E9]), (0xABBA, [0x13EA]), (0xABBB, [0x13EB]), (0xABBC, [0x13EC]), (0xABBD, [0x13ED]), (0xABBE, [0x13EE]),
   (0xABBF, [0x13EF]), (0xFB00, [0x46, 0x46]), (0xFB01, [0x46, 0x49]), (0xFB02, [0x46, 0x4C]), (0xFB03, [0x46, 0x46, 0x49]), (0xFB04, [0x46, 0x46, 0x4C]), (0xFB05, [0x53, 0x54]), (0xFB06, [0x53, 0x54]),
   (0xFB13, [0x544, 0x546]), (0xFB14, [0x544, 0x535]), (0xFB15, [0x544, 0x53B]), (0xFB16, [0x54E, 0x546]), (0xFB17, [0x544, 0x53D]), (0xFF41, [0xFF21]), (0xFF42, [0xFF22]), (0xFF43, [0xFF23]),
   (0xFF44, [0xFF24]), (0xFF45, [0xFF25]), (0xFF46, [0xFF26]), (0xFF47, [0xFF27]), (0xFF48, [0xFF28]), (0xFF49, [0xFF29]), (0xFF4A, [0xFF2A]), (0xFF4B, [0xFF2B]),
   (0xFF4C, [0xFF2C]), (0xFF4D, [0xFF2D]), (0xFF4E, [0xFF2E]), (0xFF4F, [0xFF2F]), (0xFF50, [0xFF30]), (0xFF51, [0xFF31]), (0xFF52, [0xFF32]), (0xFF53, [0xFF33]),
   (0xFF54, [0xFF34]), (0xFF55, [0xFF35]), (0xFF56, [0xFF36]), (0xFF57, [0xFF37]), (0xFF58, [0xFF38]), (0xFF59, [0xFF39]), (0xFF5A, [0xFF3A])]

/-- The code units above ASCII that `String.prototype.toUpperCase` changes, each with
the code units it becomes: the upper-case mapping of the Unicode Character Database
(version 14), special casing included, for the Basic Multilingual Plane. -/
def upperCaseTable : List (Nat × JSString) :=
  upperCaseBlock0 ++ upperCaseBlock1 ++ upperCaseBlock2 ++ upperCaseBlock3 ++
  upperCaseBlock4 ++ upperCaseBlock5 ++ upperCaseBlock6 ++ upperCaseBlock7

/-- `String.prototype.toUpperCase`, code unit by code unit: exact for every string
without letters of the supplementary planes, so for every string of one code unit
(a surrogate on its own is kept), which is what `charAt(0)` gives. -/
def toUpperCase (s : JSString) : JSString :=
  s.flatMap fun c =>
    if 97 ≤ c ∧ c ≤ 122 then [c - 32]
    else if c < 128 then [c]
    else (upperCaseTable.lookup c).getD [c]

/-- Decimal numeral of a natural number, as `String(n)` gives for an integer. -/
def numberToString (n : Nat) : JSString := (Nat.toDigits 10 n).map Char.toNat

/-- Truthiness of a string: only the empty string is falsy. -/
def truthy (s : JSString) : Bool := !s.isEmpty

/-! ## Property lookup on an object literal -/

/-- The property names of `Object.prototype`. A lookup `table[key]` on an object
literal that has no own property `key` continues along the prototype chain and
finds these. -/
def objectPrototypeKeys : List JSString :=
  [lit "constructor", lit "hasOwnProperty", lit "isPrototypeOf",
   lit "propertyIsEnumerable", lit "toLocaleString", lit "toString", lit "valueOf",
   lit "__proto__", lit "__defineGetter__", lit "__defineSetter__",
   lit "__lookupGetter__", lit "__lookupSetter__"]

/-- What a lookup in one of the string tables of the source evaluates to: a string
(an own entry of the table, or the default), or the member of `Object.prototype`
of the given name (a function, or for `__proto__` the prototype object). -/
inductive JSValue where
  | str (s : JSString)
  | inherited (key : JSString)
  deriving DecidableEq, Repr

/-- The expression `table[key]`, where `table` is an object literal with the given
own string entries; `none` is `undefined`. -/
def getProperty (table : List (JSString × JSString)) (key : JSString) : Option JSValue :=
  match table.lookup key with
  | some v => some (.str v)
  | none => if key ∈ objectPrototypeKeys then some (.inherited key) else none

/-- The expression `v || dflt` for a looked-up `v`: `undefined` and the empty string
are falsy, functions and objects are truthy. -/
def orDefault (v : Option JSValue) (dflt : JSString) : JSValue :=
  match v with
  | some (.str s) => if truthy s then .str s else .str dflt
  | some (.inherited k) => .inherited k
  | none => .str dflt

/-- String conversion of a looked-up value inside a template literal. A built-in
function prints as its native-code source text, the prototype object as
`[object Object]`. -/
def JSValue.toJSString : JSValue → JSString
  | .str s => s
  | .inherited k =>
    if k = lit "__proto__" then lit "[object Object]"
    else if k = lit "constructor" then lit "function Object() \x7b [native code] \x7d"
    else lit "function " ++ k ++ lit "() \x7b [native code] \x7d"

/-! ## Lookup tables -/

/-- The object literal `colors` of `getEmotionColor`. -/
def emotionColors : List (JSString × JSString) :=
  [(lit "joy", lit "#FFD700"), (lit "sadness", lit "#4169E1"), (lit "anger", lit "#FF4500"),
   (lit "fear", lit "#8A2BE2"), (lit "surprise", lit "#FF69B4"), (lit "love", lit "#FF1493"),
   (lit "neutral", lit "#808080")]

/-- The object literal `emojis` of `getEmotionEmoji`. -/
def emotionEmojis : List (JSString × JSString) :=
  [(lit "joy", lit "😄"), (lit "sadness", lit "😢"), (lit "anger", lit "😡"),
   (lit "fear", lit "😨"), (lit "surprise", lit "😲"), (lit "love", lit "❤️"),
   (lit "neutral", lit "😐")]

/-- The method `getEmotionColor`: `colors[emotion] || '#808080'`. -/
def getEmotionColor (emotion : JSString) : JSValue :=
  orDefault (getProperty emotionColors emotion) (lit "#808080")

/-- The method `getEmotionEmoji`: `emojis[emotion] || '😐'`. -/
def getEmotionEmoji (emotion : JSString) : JSValue :=
  orDefault (getProperty emotionEmojis emotion) (lit "😐")

/-- The object literal `colors` of `showNotification`. -/
def notificationColors : List (JSString × JSString) :=
  [(lit "success", lit "#10b981"), (lit "error", lit "#ef4444"),
   (lit "warning", lit "#f59e0b"), (lit "info", lit "#6366f1")]

/-- The object literal `icons` of `getNotificationIcon`. -/
def notificationIcons : List (JSString × JSString) :=
  [(lit "success", lit "✅"), (lit "error", lit "❌"), (lit "warning", lit "⚠️"),
   (lit "info", lit "💡")]

/-- The method `getNotificationIcon`: `icons[type] || '💡'`. -/
def getNotificationIcon (type : JSString) : JSValue :=
  orDefault (getProperty notificationIcons type) (lit "💡")

/-! ## Numbers

A non-negative finite double is `u * 2^-1074` for a natural number `u`, its number
of units; `u` is a double when it has at most 53 significant bits. The model has no
upper exponent bound, so it is exact for results below `2^1024`. -/

/-- A non-negative double, as its number of units of `2^-1074`. -/
abbrev F64 := Nat

/-- The double `1`. -/
def F64.one : F64 := 2 ^ 1074

/-- The binary exponent of the unit in the last place for a value of `q` units: the
largest `sh` with `2^52 ≤ q / 2^sh`, and `0` for `q < 2^53`, where every natural
number of units is a double. Found by bisection, which covers `q < 2^2100`. -/
def ulpShift (q : Nat) : Nat :=
  [1024, 512, 256, 128, 64, 32, 16, 8, 4, 2, 1].foldl
    (fun sh step => if 2 ^ 52 ≤ q / 2 ^ (sh + step) then sh + step else sh) 0

/-- Rounding of the non-negative rational `num / den` (in units) to the nearest
double, ties to the even significand: the IEEE-754 default rounding. -/
def roundNearestEven (num den : Nat) : F64 :=
  let sh := ulpShift (num / den)
  let unit := den * 2 ^ sh
  let k := num / unit
  let r := num % unit
  if 2 * r < unit then k * 2 ^ sh
  else if unit < 2 * r then (k + 1) * 2 ^ sh
  else if k % 2 = 0 then k * 2 ^ sh
  else (k + 1) * 2 ^ sh

/-- The double a decimal literal `n / d` of a JSON payload denotes. -/
def ofDecimal (n d : Nat) : F64 := roundNearestEven (n * 2 ^ 1074) d

/-- The expression `score * 100`: the exact product, rounded to a double. -/
def mul100 (score : F64) : F64 := roundNearestEven (score * 100) 1

/-- The call `x.toFixed(1)` for `x < 1e21`: with `n` the integer nearest to `10 * x`,
the larger one on a tie, the digits of `n` with a point before the last one. -/
def toFixed1 (x : F64) : JSString :=
  let n := (10 * x + 2 ^ 1073) / 2 ^ 1074
  numberToString (n / 10) ++ lit "." ++ numberToString (n % 10)

/-- The comparator `([, a], [, b]) => b - a` puts `x` before `y` when `b - a` is not
positive for `a` the score of `x` and `b` that of `y`. The difference of two finite
doubles has the sign of their exact difference. -/
def scoreDescending (x y : JSString × F64) : Prop := y.2 ≤ x.2

instance : DecidableRel scoreDescending := fun x y => inferInstanceAs (Decidable (y.2 ≤ x.2))

instance : IsTotal (JSString × F64) scoreDescending := ⟨fun x y => Nat.le_total y.2 x.2⟩

instance : IsTrans (JSString × F64) scoreDescending := ⟨fun _ _ _ hxy hyz => Nat.le_trans hyz hxy⟩

/-! ## The response of the analysis service -/

/-- The field `top_emotion` of a response, when it is given (and truthy): its
`label`, which is `none` when the object carries no label, and its `confidence`. -/
structure TopEmotion where
  label : Option JSString
  confidence : F64
  deriving DecidableEq, Repr

/-- An integer that a JSON number holds exactly: below `2^53`. -/
abbrev SafeInteger := Fin (2 ^ 53)

/-- The decoded JSON body of a response of `/analyze`, typed as the data model gives
it; a field that may be missing is optional. `success` is the truthiness of the
field. The entries of `emotion_scores` are listed in the order `Object.entries`
enumerates them. -/
structure AnalysisResponse where
  success : Bool
  text : Option JSString
  emotion_scores : Option (List (JSString × F64))
  top_emotion : Option TopEmotion
  emojis_found : Option (List JSString)
  history_id : Option SafeInteger
  error : Option JSString
  message : Option JSString
  deriving DecidableEq, Repr

/-- The expression `a || b` for an optional string field `a`: a missing field and the
empty string are falsy. -/
def jsOr (a : Option JSString) (b : JSString) : JSString :=
  match a with
  | some s => if truthy s then s else b
  | none => b

/-! ## Rendering of the results -/

/-- The method `escapeHtml`: the text becomes the text content of a fresh `div`,
whose `innerHTML` is read back. The HTML fragment serialisation of a text node
replaces `&`, the no-break space, `<` and `>` by their entities. -/
def escapeHtml (text : JSString) : JSString :=
  text.flatMap fun c =>
    if c = 0x26 then lit "&amp;"
    else if c = 0xA0 then lit "&nbsp;"
    else if c = 0x3C then lit "&lt;"
    else if c = 0x3E then lit "&gt;"
    else [c]

/-- The expression `label.charAt(0).toUpperCase() + label.slice(1)`. -/
def capitalize (label : JSString) : JSString :=
  toUpperCase (charAt label 0) ++ slice label 1

/-- The span that marks the row of the top emotion. -/
def topMarker : JSString :=
  lit "<span style=\"background: var(--primary); color: white; font-size: 0.7rem; padding: 0.2rem 0.5rem; border-radius: 10px; margin-left: 0.5rem;\">🎯 Top</span>"

/-- One row of the emotion breakdown: what the callback of `forEach` computes for
an entry `[emotion, score]`. -/
structure Row where
  emotion : JSString
  score : F64
  percentage : JSString
  color : JSValue
  emoji : JSValue
  top : Bool
  deriving DecidableEq, Repr

/-- The values the callback of `forEach` computes for one entry. -/
def renderRow (topLabel : JSString) (entry : JSString × F64) : Row where
  emotion := entry.1
  score := entry.2
  percentage := toFixed1 (mul100 entry.2)
  color := getEmotionColor entry.1
  emoji := getEmotionEmoji entry.1
  top := decide (entry.1 = topLabel)

/-- The markup the callback of `forEach` appends for one entry. -/
def Row.html (r : Row) : JSString :=
  lit "
                    <div style=\"display: flex; align-items: center; gap: 1rem; margin-bottom: 1rem; padding: 0.5rem; border-radius: 8px; transition: background 0.2s;\" 
                         onmouseover=\"this.style.background='var(--gray-light)'\" 
                         onmouseout=\"this.style.background='transparent'\">
                        <div style=\"display: flex; align-items: center; gap: 0.5rem; min-width: 100px;\">
                            <span style=\"font-size: 1.2rem;\">" ++
  r.emoji.toJSString ++
  lit "</span>
                            <span style=\"font-weight: 500;\">" ++
  capitalize r.emotion ++
  lit "</span>
                            " ++
  (if r.top then topMarker else []) ++
  lit "
                        </div>
                        <div style=\"flex: 1; height: 10px; background: #e0e0e0; border-radius: 5px; overflow: hidden;\">
                            <div style=\"height: 100%; width: " ++
  r.percentage ++
  lit "%; background-color: " ++
  r.color.toJSString ++
  lit "; transition: width 0.8s ease;\"></div>
                        </div>
                        <div style=\"min-width: 50px; text-align: right; font-weight: 600; color: var(--primary);\">
                            " ++
  r.percentage ++
  lit "%
                        </div>
                    </div>
                "

/-- The top emotion of the response, or the default of the source when the field is
missing: the label `neutral` with confidence `0`. -/
def topEmotionOf (data : AnalysisResponse) : TopEmotion :=
  data.top_emotion.getD ⟨some (lit "neutral"), 0⟩

/-- The property key an optional string is converted to: `undefined` gives the key
`undefined`. -/
def propertyKey (label : Option JSString) : JSString := label.getD (lit "undefined")

/-- The expression `topEmotion.label.charAt(0).toUpperCase() + topEmotion.label.slice(1)`
of the first template. Without a label the source raises at this point, which
`resultsHTML` records; nothing stands for the expression then. -/
def capitalizeTop : Option JSString → JSString
  | some label => capitalize label
  | none => []

/-- The values the callback of `forEach` computes for one entry, for the label of the
top emotion as the response gives it: no entry is equal to a missing label. -/
def renderRowFor (topLabel : Option JSString) (entry : JSString × F64) : Row :=
  match topLabel with
  | some label => renderRow label entry
  | none => { renderRow [] entry with top := false }

/-- The entries of `emotion_scores`, or those of the empty object, the default of
the source, when the field is missing. -/
def emotionScoresOf (data : AnalysisResponse) : List (JSString × F64) :=
  data.emotion_scores.getD []

/-- The expression `Object.entries(emotionScores).sort(([, a], [, b]) => b - a)`.
`Array.prototype.sort` is stable, and the comparator is a consistent one, which
determines the result: the stable sort by descending score. -/
def sortedEntries (entries : List (JSString × F64)) : List (JSString × F64) :=
  entries.insertionSort scoreDescending

/-- The rows of the emotion breakdown, in the order they are appended. -/
def displayRows (data : AnalysisResponse) : List Row :=
  (sortedEntries (emotionScoresOf data)).map (renderRowFor (topEmotionOf data).label)

/-- The badge shown for a truthy `history_id`. -/
def historyBadge (history_id : Option SafeInteger) : JSString :=
  match history_id with
  | some n =>
    if n.val ≠ 0 then
      lit "<span style=\"margin-left: 0.5rem; background: rgba(255,255,255,0.2); color: var(--gray-dark); padding: 0.3rem 0.8rem; border-radius: 20px; font-size: 0.85rem;\">
                                    📝 #" ++
      numberToString n.val ++
      lit "
                                </span>"
    else []
  | none => []

/-- The first template of `displayResults`: the card of the top emotion and the
heading of the breakdown. -/
def topCardHTML (data : AnalysisResponse) : JSString :=
  lit "
            <div class=\"results-container fade-in\">
                <div class=\"top-emotion-card\" style=\"
                    background: linear-gradient(135deg, " ++
  (getEmotionColor (propertyKey (topEmotionOf data).label)).toJSString ++
  lit "20, " ++
  (getEmotionColor (propertyKey (topEmotionOf data).label)).toJSString ++
  lit "10);
                    padding: 1.5rem;
                    border-radius: 15px;
                    margin-bottom: 2rem;
                    border-left: 5px solid " ++
  (getEmotionColor (propertyKey (topEmotionOf data).label)).toJSString ++
  lit ";
                \">
                    <div style=\"display: flex; align-items: center; gap: 1.5rem;\">
                        <div style=\"font-size: 3rem;\">" ++
  (getEmotionEmoji (propertyKey (topEmotionOf data).label)).toJSString ++
  lit "</div>
                        <div>
                            <h2 style=\"margin: 0; color: var(--primary);\">
                                " ++
  capitalizeTop (topEmotionOf data).label ++
  lit "
                            </h2>
                            <div style=\"margin-top: 0.5rem;\">
                                <span style=\"background: white; color: var(--primary); padding: 0.3rem 0.8rem; border-radius: 20px; font-size: 0.9rem; font-weight: 600;\">
                                    " ++
  toFixed1 (mul100 (topEmotionOf data).confidence) ++
  lit "% Confidence
                                </span>
                                " ++
  historyBadge data.history_id ++
  lit "
                            </div>
                        </div>
                    </div>
                </div>
                
                <div style=\"background: white; padding: 1.5rem; border-radius: 15px; box-shadow: 0 2px 15px rgba(0,0,0,0.05); margin-bottom: 1.5rem;\">
                    <h3 style=\"margin: 0 0 1rem 0; color: var(--primary);\">
                        <i class=\"fas fa-chart-bar\"></i> Emotion Breakdown
                    </h3>
        "

/-- The markup before the escaped original text in the last template. -/
def originalTextOpenHTML : JSString :=
  lit "
                </div>
                
                <!-- Original Text -->
                <div style=\"background: white; padding: 1.5rem; border-radius: 15px; box-shadow: 0 2px 15px rgba(0,0,0,0.05);\">
                    <h3 style=\"margin: 0 0 1rem 0; color: var(--primary);\">
                        <i class=\"fas fa-file-alt\"></i> Original Text
                    </h3>
                    <div style=\"background: var(--gray-light); padding: 1.5rem; border-radius: 10px; line-height: 1.6; color: var(--gray-dark);\">
                        "

/-- The markup after the escaped original text: the counts, the time of rendering
`now` (the value of `new Date().toLocaleTimeString()`) and the action buttons. -/
def originalTextCloseHTML (now : JSString) (text : JSString) (emojis_found : Option (List JSString)) :
    JSString :=
  lit "
                    </div>
                    <div style=\"display: flex; gap: 1.5rem; margin-top: 1rem; font-size: 0.9rem; color: var(--gray);\">
                        <span><i class=\"fas fa-font\"></i> " ++
  numberToString text.length ++
  lit " characters</span>
                        <span><i class=\"fas fa-icons\"></i> " ++
  numberToString ((emojis_found.map List.length).getD 0) ++
  lit " emojis</span>
                        <span><i class=\"fas fa-clock\"></i> " ++
  now ++
  lit "</span>
                    </div>
                </div>
                
                <!-- Action Buttons -->
                <div style=\"display: flex; gap: 1rem; margin-top: 2rem;\">
                    <button class=\"btn btn-secondary\" onclick=\"emojiAnalyzer.analyzeText()\">
                        <i class=\"fas fa-redo\"></i> Re-analyze
                    </button>
                    <button class=\"btn btn-secondary\" onclick=\"emojiAnalyzer.clearText()\">
                        <i class=\"fas fa-eraser\"></i> Clear & Start Over
                    </button>
                    <a href=\"/history\" class=\"btn btn-secondary\">
                        <i class=\"fas fa-history\"></i> View History
                    </a>
                </div>
            </div>
        "

/-- The message of the `TypeError` that reading `data.text.length` raises when the
field `text` is missing (the wording is the engine's). -/
def missingTextError : JSString :=
  lit "Cannot read properties of undefined (reading \x27length\x27)"

/-- The message of the `TypeError` that `topEmotion.label.charAt(0)` raises when the
top emotion carries no label (the wording is the engine's). -/
def missingLabelError : JSString :=
  lit "Cannot read properties of undefined (reading \x27charAt\x27)"

/-- The string `resultsHTML` that `displayResults` builds, or the message of the
error raised while building it: in the first template when the top emotion has no
label, in the last one when the response has no text. -/
def resultsHTML (now : JSString) (data : AnalysisResponse) : Except JSString JSString :=
  match (topEmotionOf data).label with
  | none => .error missingLabelError
  | some _ =>
    match data.text with
    | none => .error missingTextError
    | some text =>
      .ok (topCardHTML data ++ ((displayRows data).map Row.html).flatten ++
        originalTextOpenHTML ++ escapeHtml text ++
        originalTextCloseHTML now text data.emojis_found)

/-- The panel `showError` renders around `message`. -/
def errorPanelHTML (message : JSString) : JSString :=
  lit "
            <div style=\"text-align: center; padding: 3rem; background: linear-gradient(135deg, #fee, #fdd); border-radius: 15px; animation: fadeIn 0.5s ease;\">
                <div style=\"font-size: 4rem; margin-bottom: 1rem;\">😞</div>
                <h3 style=\"color: #dc3545; margin-bottom: 1rem;\">Analysis Error</h3>
                <p style=\"color: #666; margin-bottom: 2rem;\">" ++
  message ++
  lit "</p>
                <div style=\"display: flex; gap: 1rem; justify-content: center;\">
                    <button class=\"btn btn-primary\" onclick=\"emojiAnalyzer.analyzeText()\">
                        <i class=\"fas fa-redo\"></i> Try Again
                    </button>
                    <button class=\"btn btn-secondary\" onclick=\"emojiAnalyzer.clearText()\">
                        <i class=\"fas fa-eraser\"></i> Clear Text
                    </button>
                </div>
            </div>
        "

/-- The placeholder `showEmptyState` renders. -/
def emptyStateHTML : JSString :=
  lit "
            <div style=\"text-align: center; padding: 3rem; color: var(--gray);\">
                <div style=\"font-size: 4rem; margin-bottom: 1rem;\">😊</div>
                <h3>Ready to Analyze!</h3>
                <p>Enter some text and click \"Analyze Emotions\" to see the results here.</p>
            </div>
        "

/-- The markup of a notification. -/
def notificationHTML (message type : JSString) : JSString :=
  lit "
            <div style=\"display: flex; align-items: center; gap: 8px;\">
                " ++
  (getNotificationIcon type).toJSString ++
  lit "
                <span>" ++
  message ++
  lit "</span>
            </div>
        "

/-- The inline style of a notification. -/
def notificationCss (type : JSString) : JSString :=
  lit "
            position: fixed;
            top: 20px;
            right: 20px;
            background: " ++
  (orDefault (getProperty notificationColors type) (lit "#6366f1")).toJSString ++
  lit ";
            color: white;
            padding: 12px 20px;
            border-radius: 10px;
            z-index: 10000;
            animation: slideInRight 0.3s ease;
            box-shadow: 0 4px 15px rgba(0,0,0,0.2);
            font-weight: 500;
            max-width: 300px;
        "

/-! ## The page -/

/-- The text field `#textInput`: its value as its `value` property returns it, its
selection, whether it has the focus, its inline height, and whether it is a
`textarea` (`multiline`) or a single-line `input`. -/
structure TextInput where
  value : JSString
  selectionStart : Nat
  selectionEnd : Nat
  focused : Bool
  height : JSString
  multiline : Bool
  deriving DecidableEq, Repr

/-- The trigger control `#analyzeBtn`. -/
structure Button where
  disabled : Bool
  innerHTML : JSString
  deriving DecidableEq, Repr

/-- The element `showNotification` appends to the body. -/
structure Notification where
  message : JSString
  type : JSString
  innerHTML : JSString
  cssText : JSString
  deriving DecidableEq, Repr

/-- A call of `fetch`: the method, the path and the text of the JSON body. -/
structure Request where
  method : JSString
  path : JSString
  text : JSString
  deriving DecidableEq, Repr

/-- The state of the page the controller acts on. An element that
`document.getElementById` does not find is `none` (`false` for the two controls of
which only the presence matters). `resultsContainer` holds the `innerHTML` of the
results container, `loadingSpinner` the `style.display` of the busy indicator,
`notification` the element of class `quick-notification` when there is one, and
`requests` the calls of `fetch` made so far. -/
structure Page where
  textInput : Option TextInput
  analyzeBtn : Option Button
  clearBtn : Bool
  historyBtn : Bool
  resultsContainer : Option JSString
  loadingSpinner : Option JSString
  notification : Option Notification
  requests : List Request
  deriving DecidableEq, Repr

/-- Setting the selection range of a text control: positions beyond the length point
at the end, and an end at or before the start collapses the selection there. -/
def TextInput.setSelectionRange (t : TextInput) (start stop : Nat) : TextInput :=
  let s := min start t.value.length
  let e := min stop t.value.length
  { t with selectionStart := if e ≤ s then e else s, selectionEnd := e }

/-- The setter of `selectionEnd`. -/
def TextInput.setSelectionEnd (t : TextInput) (v : Nat) : TextInput :=
  t.setSelectionRange t.selectionStart v

/-- The setter of `selectionStart`. -/
def TextInput.setSelectionStart (t : TextInput) (v : Nat) : TextInput :=
  t.setSelectionRange v (if t.selectionEnd < v then v else t.selectionEnd)

/-- The newline normalisation of the value of a `textarea`: a carriage return followed
by a line feed, and a carriage return on its own, become one line feed. -/
def normalizeNewlines : JSString → JSString
  | 0x0D :: 0x0A :: rest => 0x0A :: normalizeNewlines rest
  | 0x0D :: rest => 0x0A :: normalizeNewlines rest
  | c :: rest => c :: normalizeNewlines rest
  | [] => []

/-- The value sanitisation of a single-line `input`: line feeds and carriage returns
are stripped. -/
def stripNewlines (s : JSString) : JSString :=
  s.filter fun c => c != 0x0A && c != 0x0D

/-- The value the text field holds once it is assigned `v`. -/
def TextInput.sanitize (t : TextInput) (v : JSString) : JSString :=
  if t.multiline then normalizeNewlines v else stripNewlines v

/-- The setter of `value`: the field holds the sanitised string, and a value that
differs from the old one moves the caret to the end of the field. -/
def TextInput.setValue (t : TextInput) (v : JSString) : TextInput :=
  if t.sanitize v = t.value then t
  else
    { t with
      value := t.sanitize v
      selectionStart := (t.sanitize v).length
      selectionEnd := (t.sanitize v).length }

/-- The method `focus` of the text field. -/
def TextInput.focus (t : TextInput) : TextInput := { t with focused := true }

/-! ## The controller -/

/-- The method `showLoading`. -/
def showLoading (statusShown : Bool) (st : Page) : Page :=
  { st with
    loadingSpinner := st.loadingSpinner.map fun _ => if statusShown then lit "flex" else lit "none"
    analyzeBtn := st.analyzeBtn.map fun _ =>
      { disabled := statusShown
        innerHTML :=
          if statusShown then lit "<i class=\"fas fa-spinner fa-spin\"></i> Analyzing..."
          else lit "<i class=\"fas fa-brain\"></i> Analyze Emotions" } }

/-- The method `showError`. -/
def showError (message : JSString) (st : Page) : Page :=
  { st with resultsContainer := st.resultsContainer.map fun _ => errorPanelHTML message }

/-- The method `showEmptyState`. -/
def showEmptyState (st : Page) : Page :=
  { st with resultsContainer := st.resultsContainer.map fun _ => emptyStateHTML }

/-- The method `showNotification`: the notification on display, if any, is removed
and the new one appended. -/
def showNotification (message type : JSString) (st : Page) : Page :=
  { st with
    notification := some
      { message := message, type := type
        innerHTML := notificationHTML message type
        cssText := notificationCss type } }

/-- The method `displayResults`: without a results container it returns at once;
otherwise it builds the markup, which may raise, and then assigns it. -/
def displayResults (now : JSString) (data : AnalysisResponse) (st : Page) :
    Except JSString Page :=
  match st.resultsContainer with
  | none => .ok st
  | some _ =>
    match resultsHTML now data with
    | .error e => .error e
    | .ok html => .ok { st with resultsContainer := some html }

/-- The method `clearText`. -/
def clearText (st : Page) : Page :=
  match st.textInput with
  | some t =>
    showNotification (lit "Text cleared!") (lit "info")
      (showEmptyState { st with textInput := some { t.setValue [] with height := lit "auto" } })
  | none => st

/-- How the request of `analyzeText` ends: `fetch` rejects; the body is not JSON, so
that `response.json()` rejects; the body is the JSON `null`; or the body decodes to
a payload. The messages are those of the errors the platform raises. -/
inductive Outcome where
  | transportFailure (message : JSString)
  | undecodable (status : Nat) (message : JSString)
  | nullBody (status : Nat)
  | payload (status : Nat) (data : AnalysisResponse)
  deriving DecidableEq, Repr

/-- The property `response.ok`: the status is in the range 200 to 299. -/
def responseOk (status : Nat) : Bool := decide (200 ≤ status ∧ status ≤ 299)

/-- The part of `analyzeText` before the call of `fetch`: the validation and, for a
text that passes it, `showLoading(true)` and the request. The second component is
the request issued, if any. -/
def analyzeBegin (st : Page) : Page × Option Request :=
  match st.textInput with
  | none => (showError (lit "Text input element not found") st, none)
  | some t =>
    let text := trim t.value
    if !truthy text then
      let st1 := showNotification (lit "Please enter some text to analyze!") (lit "warning") st
      ({ st1 with textInput := some t.focus }, none)
    else if text.length < 3 then
      (showNotification (lit "Please enter more text (at least 3 characters)") (lit "warning") st,
        none)
    else
      let st1 := showLoading true st
      let request : Request := { method := lit "POST", path := lit "/analyze", text := text }
      ({ st1 with requests := st1.requests ++ [request] }, some request)

/-- The body of the `try` block of `analyzeText` from the point where the outcome of
the request is known: the new state, or the message of the error thrown. -/
def tryBlock (now : JSString) (outcome : Outcome) (st : Page) : Except JSString Page :=
  match outcome with
  | .transportFailure m => .error m
  | .undecodable _ m => .error m
  | .nullBody status =>
    if !responseOk status then
      .error (lit "Cannot read properties of null (reading \x27error\x27)")
    else .error (lit "Cannot read properties of null (reading \x27success\x27)")
  | .payload status data =>
    if !responseOk status then
      .error (jsOr data.error (jsOr data.message (lit "Server error: " ++ numberToString status)))
    else if !data.success then
      .error (jsOr data.message (lit "Analysis failed"))
    else displayResults now data st

/-- The message `showError` is given in the `catch` clause:
`error.message || 'Failed to analyze text. Please try again.'`. -/
def shownMessage (errorMessage : JSString) : JSString :=
  jsOr (some errorMessage) (lit "Failed to analyze text. Please try again.")

/-- The part of `analyzeText` after the call of `fetch`: the `try` block, the `catch`
clause for an error thrown in it, and the `finally` clause. -/
def analyzeComplete (now : JSString) (outcome : Outcome) (st : Page) : Page :=
  match tryBlock now outcome st with
  | .ok st1 => showLoading false st1
  | .error m => showLoading false (showError (shownMessage m) st)

/-- The method `analyzeText`, for a request that ends with `outcome`. -/
def analyzeText (now : JSString) (outcome : Outcome) (st : Page) : Page :=
  match analyzeBegin st with
  | (st1, none) => st1
  | (st1, some _) => analyzeComplete now outcome st1

/-- The global function `insertEmoji`; `initialized` tells whether
`window.emojiAnalyzer` is set. -/
def insertEmoji (initialized : Bool) (emoji : JSString) (st : Page) : Page :=
  if initialized then
    match st.textInput with
    | some t =>
      let start := t.selectionStart
      let stop := t.selectionEnd
      let text := t.value
      let t1 := t.setValue (substring text 0 start ++ emoji ++ substringFrom text stop)
      let t2 := t1.focus
      let t3 := t2.setSelectionEnd (start + emoji.length)
      { st with textInput := some (t3.setSelectionStart (start + emoji.length)) }
    | none => st
  else st

/-- The natural numbers of units that are doubles: those with a significand of at
most 53 bits. -/
def isDouble (u : Nat) : Prop := ∃ m e, m < 2 ^ 53 ∧ u = m * 2 ^ e

/-! ## Decoding of the escaped text -/

/-- The names, with the closing semicolon, of the character references that
`escapeHtml` produces: `amp;`, `nbsp;`, `lt;`, `gt;`. -/
def entityNames : List JSString := [lit "amp;", lit "nbsp;", lit "lt;", lit "gt;"]

/-- Decoding of the character references `&amp;`, `&nbsp;`, `&lt;` and `&gt;`, as an
HTML parser reads them in text; every other code unit stands for itself. -/
def decodeEntities : JSString → JSString
  | 0x26 :: 0x61 :: 0x6D :: 0x70 :: 0x3B :: tail => 0x26 :: decodeEntities tail
  | 0x26 :: 0x6E :: 0x62 :: 0x73 :: 0x70 :: 0x3B :: tail => 0xA0 :: decodeEntities tail
  | 0x26 :: 0x6C :: 0x74 :: 0x3B :: tail => 0x3C :: decodeEntities tail
  | 0x26 :: 0x67 :: 0x74 :: 0x3B :: tail => 0x3E :: decodeEntities tail
  | c :: rest => c :: decodeEntities rest
  | [] => []

/-! ## Reference values and example inputs -/

/-- The seven labels of the tables of `getEmotionColor` and `getEmotionEmoji`. -/
def knownLabels : List JSString :=
  [lit "joy", lit "sadness", lit "anger", lit "fear", lit "surprise", lit "love", lit "neutral"]

/-- The statement of the specification for a percentage, in its own words: the
decimal numeral of the exact product `100 * s` rounded to one decimal place (half
up). It is compared with what the source computes. -/
def exactPercent (s : F64) : JSString :=
  let n := (1000 * s + 2 ^ 1073) / 2 ^ 1074
  numberToString (n / 10) ++ lit "." ++ numberToString (n % 10)

/-- The response of the end-to-end example of the specification. -/
def exampleResponse : AnalysisResponse where
  success := true
  text := some (lit "I'm absolutely thrilled! 😄🎉")
  emotion_scores := some
    [(lit "joy", ofDecimal 91 100), (lit "surprise", ofDecimal 5 100), (lit "neutral", ofDecimal 4 100)]
  top_emotion := some ⟨some (lit "joy"), ofDecimal 91 100⟩
  emojis_found := some [lit "😄", lit "🎉"]
  history_id := none
  error := none
  message := none

/-- A payload of a failed analysis that carries only the given `error` and `message`
fields. -/
def failedPayload (error message : Option JSString) : AnalysisResponse where
  success := false
  text := none
  emotion_scores := none
  top_emotion := none
  emojis_found := none
  history_id := none
  error := error
  message := message

/-- A page with all its elements, showing the placeholder, whose text field, a
`textarea`, holds `text` with the caret at `caret`. -/
def examplePage (text : JSString) (caret : Nat) : Page where
  textInput := some ⟨text, caret, caret, false, [], true⟩
  analyzeBtn := some ⟨false, lit "<i class=\"fas fa-brain\"></i> Analyze Emotions"⟩
  clearBtn := true
  historyBtn := true
  resultsContainer := some emptyStateHTML
  loadingSpinner := some (lit "none")
  notification := none
  requests := []

/-! ## Initialisation and events -/

/-- The event listeners `bindEvents` adds: the click listeners of the three controls,
the `input` listener of the text field and the `keydown` listener of the document. -/
structure Listeners where
  analyzeClick : Bool
  clearClick : Bool
  historyClick : Bool
  textInputInput : Bool
  documentKeydown : Bool
  deriving DecidableEq, Repr

/-- The controller once its constructor has run: the page, the listeners bound and
the messages written with `console.error`. -/
structure Controller where
  page : Page
  listeners : Listeners
  consoleErrors : List JSString
  deriving DecidableEq, Repr

/-- The method `bindEvents`: a listener is added for each control that was found, the
text field gets the focus when it was found, and the `keydown` listener of the
document is added in any case. Only a missing trigger control is reported, on the
console. -/
def bindEvents (st : Page) : Controller where
  page := { st with textInput := st.textInput.map TextInput.focus }
  listeners :=
    { analyzeClick := st.analyzeBtn.isSome
      clearClick := st.clearBtn
      historyClick := st.historyBtn
      textInputInput := st.textInput.isSome
      documentKeydown := true }
  consoleErrors := if st.analyzeBtn.isSome then [] else [lit "❌ Analyze button NOT found!"]

/-- The constructor of `EmojiAnalyzer`: `initializeElements` looks the six elements up,
which the page record holds as present or absent, and `bindEvents` follows. The
list `sampleTexts`, which only `loadSample` reads, is left out. -/
def construct (st : Page) : Controller := bindEvents st

/-- The events the listeners react to: a click on one of the three controls, an
`input` event of the text field (with the `scrollHeight` the layout gives it) and
Ctrl+Enter on the document. -/
inductive Event where
  | analyzeClick
  | clearClick
  | historyClick
  | input (scrollHeight : Nat)
  | ctrlEnter
  deriving DecidableEq, Repr

/-- What an event does to the page of a constructed controller, for a request that
ends with `outcome`: the listener runs if it was added. The second component is the
path the history control navigates to. -/
def dispatch (now : JSString) (outcome : Outcome) (c : Controller) (e : Event) :
    Page × Option JSString :=
  match e with
  | .analyzeClick =>
    if c.listeners.analyzeClick then (analyzeText now outcome c.page, none) else (c.page, none)
  | .clearClick =>
    if c.listeners.clearClick then (clearText c.page, none) else (c.page, none)
  | .historyClick =>
    if c.listeners.historyClick then (c.page, some (lit "/history")) else (c.page, none)
  | .input scrollHeight =>
    if c.listeners.textInputInput then
      ({ c.page with
          textInput := c.page.textInput.map fun t =>
            { t with height := numberToString scrollHeight ++ lit "px" } }, none)
    else (c.page, none)
  | .ctrlEnter =>
    if c.listeners.documentKeydown then (analyzeText now outcome c.page, none) else (c.page, none)

/-- The six elements the controller looks up by their `id`. -/
inductive Element where
  | textInput
  | analyzeBtn
  | clearBtn
  | historyBtn
  | resultsContainer
  | loadingSpinner
  deriving DecidableEq, Repr

/-- The page without the given element. -/
def Page.remove (st : Page) : Element → Page
  | .textInput => { st with textInput := none }
  | .analyzeBtn => { st with analyzeBtn := none }
  | .clearBtn => { st with clearBtn := false }
  | .historyBtn => { st with historyBtn := false }
  | .resultsContainer => { st with resultsContainer := none }
  | .loadingSpinner => { st with loadingSpinner := none }

/-- Whether the page has the given element. -/
def Page.has (st : Page) : Element → Bool
  | .textInput => st.textInput.isSome
  | .analyzeBtn => st.analyzeBtn.isSome
  | .clearBtn => st.clearBtn
  | .historyBtn => st.historyBtn
  | .resultsContainer => st.resultsContainer.isSome
  | .loadingSpinner => st.loadingSpinner.isSome

/-- A page with every element but the text field, showing the placeholder. -/
def pageWithoutTextInput : Page := (examplePage [] 0).remove .textInput

/-- The low surrogate of `🎯`, the glyph of the marker of the top emotion: a code unit
that occurs once in `topMarker` and nowhere else in the templates of the rows. -/
def markerGlyph : Nat := 0xDFAF

/-- A response whose second emotion label is the text of the marker span. -/
def markerLabelResponse : AnalysisResponse :=
  { exampleResponse with
    emotion_scores := some [(lit "joy", ofDecimal 91 100), (topMarker, ofDecimal 5 100)] }

/-! ## Helper lemmas -/

theorem showLoading_analyzeBtn (b : Bool) (st : Page) (btn : Button) (h : st.analyzeBtn = some btn) :
    ∃ btn1, (showLoading b st).analyzeBtn = some btn1 ∧ btn1.disabled = b := by
  simp [showLoading, h]

theorem showLoading_loadingSpinner (b : Bool) (st : Page) (d : JSString)
    (h : st.loadingSpinner = some d) :
    (showLoading b st).loadingSpinner = some (if b then lit "flex" else lit "none") := by
  simp [showLoading, h]

theorem displayResults_analyzeBtn (now : JSString) (data : AnalysisResponse) (st st1 : Page)
    (h : displayResults now data st = .ok st1) :
    st1.analyzeBtn = st.analyzeBtn ∧ st1.loadingSpinner = st.loadingSpinner := by
  unfold displayResults at h
  split at h
  · cases h; exact ⟨rfl, rfl⟩
  · split at h
    · cases h
    · cases h; exact ⟨rfl, rfl⟩

theorem tryBlock_analyzeBtn (now : JSString) (o : Outcome) (st st1 : Page)
    (h : tryBlock now o st = .ok st1) :
    st1.analyzeBtn = st.analyzeBtn ∧ st1.loadingSpinner = st.loadingSpinner := by
  cases o with
  | transportFailure m => cases h
  | undecodable s m => cases h
  | nullBody s =>
    simp only [tryBlock] at h
    split at h <;> cases h
  | payload s data =>
    simp only [tryBlock] at h
    split at h
    · cases h
    · split at h
      · cases h
      · exact displayResults_analyzeBtn now data st st1 h

theorem analyzeComplete_cleanup (now : JSString) (o : Outcome) (st : Page) :
    (∀ btn, st.analyzeBtn = some btn →
      ∃ btn1, (analyzeComplete now o st).analyzeBtn = some btn1 ∧ btn1.disabled = false) ∧
    (∀ d, st.loadingSpinner = some d →
      (analyzeComplete now o st).loadingSpinner = some (lit "none")) := by
  unfold analyzeComplete
  cases h : tryBlock now o st with
  | ok st1 =>
    obtain ⟨hb, hs⟩ := tryBlock_analyzeBtn now o st st1 h
    refine ⟨fun btn hbtn => ?_, fun d hd => ?_⟩
    · exact showLoading_analyzeBtn false st1 btn (hb.trans hbtn)
    · simpa using showLoading_loadingSpinner false st1 d (hs.trans hd)
  | error m =>
    refine ⟨fun btn hbtn => ?_, fun d hd => ?_⟩
    · exact showLoading_analyzeBtn false _ btn hbtn
    · simpa using showLoading_loadingSpinner false (showError (shownMessage m) st) d hd

theorem analyzeBegin_valid (st : Page) (t : TextInput) (ht : st.textInput = some t)
    (hlen : 3 ≤ (trim t.value).length) :
    analyzeBegin st =
      ({ showLoading true st with
          requests := st.requests ++ [⟨lit "POST", lit "/analyze", trim t.value⟩] },
        some ⟨lit "POST", lit "/analyze", trim t.value⟩) := by
  have hne : trim t.value ≠ [] := by
    intro h
    rw [h] at hlen
    simp at hlen
  have h3 : ¬ (trim t.value).length < 3 := by omega
  simp [analyzeBegin, ht, truthy, hne, h3, showLoading]

theorem analyzeBegin_short (st : Page) (t : TextInput) (ht : st.textInput = some t)
    (hlen : (trim t.value).length < 3) :
    (analyzeBegin st).2 = none ∧
    (analyzeBegin st).1.requests = st.requests ∧
    (analyzeBegin st).1.resultsContainer = st.resultsContainer ∧
    (analyzeBegin st).1.analyzeBtn = st.analyzeBtn ∧
    (analyzeBegin st).1.loadingSpinner = st.loadingSpinner ∧
    (analyzeBegin st).1.textInput.map TextInput.value = some t.value := by
  unfold analyzeBegin
  simp only [ht]
  by_cases he : truthy (trim t.value) = true
  · simp [he, hlen, showNotification, ht]
  · simp [he, showNotification, TextInput.focus]

/-! ## Validation -/

/-- C1. A text whose trimmed length is below 3 (the empty and the blank text
included) makes `analyzeText` return before `fetch`: no request is added to the
log, and the content of the results container, the trigger control (its disabled
flag and label) and the display of the busy indicator are what they were, as is the
value of the text field. -/
theorem short_input_issues_no_request (now : JSString) (outcome : Outcome) (st : Page)
    (t : TextInput) (ht : st.textInput = some t) (hlen : (trim t.value).length < 3) :
    (analyzeBegin st).2 = none ∧
    (analyzeText now outcome st).requests = st.requests ∧
    (analyzeText now outcome st).resultsContainer = st.resultsContainer ∧
    (analyzeText now outcome st).analyzeBtn = st.analyzeBtn ∧
    (analyzeText now outcome st).loadingSpinner = st.loadingSpinner ∧
    (analyzeText now outcome st).textInput.map TextInput.value = some t.value := by
  obtain ⟨h0, h1, h2, h3, h4, h5⟩ := analyzeBegin_short st t ht hlen
  have hstep : analyzeText now outcome st = (analyzeBegin st).1 := by
    unfold analyzeText
    cases hb : analyzeBegin st with
    | mk st1 r =>
      rw [hb] at h0
      simp only at h0
      subst h0
      rfl
  rw [hstep]
  exact ⟨h0, h1, h2, h3, h4, h5⟩

/-! ## The request life cycle -/

/-- C7. For a text that passes the validation (trimmed length at least 3), with the
trigger control and the busy indicator on the page: while the request is outstanding
the control is disabled, the indicator shown and the request logged; and for every
outcome of the request (transport failure, undecodable body, `null` body, non-2xx
status, `success` false, `success` true, an error raised while rendering), once
`analyzeText` has completed the control is enabled and the indicator hidden. An
error thrown in the `try` block does not leave `analyzeText`: the result is the
error panel for its message, followed by the cleanup. -/
theorem cleanup_on_every_outcome (now : JSString) (outcome : Outcome) (st : Page)
    (t : TextInput) (btn : Button) (d : JSString)
    (ht : st.textInput = some t) (hlen : 3 ≤ (trim t.value).length)
    (hb : st.analyzeBtn = some btn) (hs : st.loadingSpinner = some d) :
    (∃ b1, (analyzeBegin st).1.analyzeBtn = some b1 ∧ b1.disabled = true) ∧
    (analyzeBegin st).1.loadingSpinner = some (lit "flex") ∧
    (analyzeBegin st).2 = some ⟨lit "POST", lit "/analyze", trim t.value⟩ ∧
    (∃ b2, (analyzeText now outcome st).analyzeBtn = some b2 ∧ b2.disabled = false) ∧
    (analyzeText now outcome st).loadingSpinner = some (lit "none") ∧
    (∀ m, tryBlock now outcome (analyzeBegin st).1 = .error m →
      analyzeText now outcome st =
        showLoading false (showError (shownMessage m) (analyzeBegin st).1)) := by
  have hbegin := analyzeBegin_valid st t ht hlen
  have hb1 : (analyzeBegin st).1.analyzeBtn = (showLoading true st).analyzeBtn := by
    rw [hbegin]
  have hs1 : (analyzeBegin st).1.loadingSpinner = (showLoading true st).loadingSpinner := by
    rw [hbegin]
  have htext : analyzeText now outcome st = analyzeComplete now outcome (analyzeBegin st).1 := by
    unfold analyzeText
    rw [hbegin]
  obtain ⟨b1, hb1', hd1⟩ := showLoading_analyzeBtn true st btn hb
  have hsp := showLoading_loadingSpinner true st d hs
  obtain ⟨hcb, hcs⟩ := analyzeComplete_cleanup now outcome (analyzeBegin st).1
  refine ⟨⟨b1, hb1.trans hb1', hd1⟩, ?_, ?_, ?_, ?_, ?_⟩
  · rw [hs1, hsp]; rfl
  · rw [hbegin]
  · rw [htext]; exact hcb b1 (hb1.trans hb1')
  · rw [htext]; exact hcs _ (hs1.trans hsp)
  · intro m hm
    rw [htext]
    unfold analyzeComplete
    rw [hm]

/-! ## Clearing -/

/-- C9, at the page without the text field on which an analysis was triggered, so that
it shows the error panel for `Text input element not found`: `clearText` changes
nothing, the panel stays in place of the placeholder and no notification is
shown. -/
theorem clearText_without_text_field_keeps_panel :
    (analyzeText [] (.transportFailure []) pageWithoutTextInput).resultsContainer =
      some (errorPanelHTML (lit "Text input element not found")) ∧
    clearText (analyzeText [] (.transportFailure []) pageWithoutTextInput) =
      analyzeText [] (.transportFailure []) pageWithoutTextInput ∧
    (clearText (analyzeText [] (.transportFailure []) pageWithoutTextInput)).resultsContainer ≠
      some emptyStateHTML ∧
    (clearText (analyzeText [] (.transportFailure []) pageWithoutTextInput)).notification =
      none := by decide!

/-- C9, amended. On a page with the text field, whatever the results container shows
(the placeholder, rendered results or the error panel), `clearText` sets the value
of the field to the empty string, replaces the content of the results container,
when there is one, by the empty-state placeholder and displays the notification
`Text cleared!` of type `info`. On a page without the text field it changes
nothing. -/
theorem clearText_resets (st : Page) :
    (∀ t, st.textInput = some t →
      (clearText st).textInput.map TextInput.value = some [] ∧
      (clearText st).resultsContainer = st.resultsContainer.map (fun _ => emptyStateHTML) ∧
      (clearText st).notification =
        some ⟨lit "Text cleared!", lit "info",
          notificationHTML (lit "Text cleared!") (lit "info"), notificationCss (lit "info")⟩) ∧
    (st.textInput = none → clearText st = st) := by
  constructor
  · intro t ht
    unfold clearText
    simp only [ht]
    refine ⟨?_, rfl, rfl⟩
    have hsan : t.sanitize [] = [] := by
      unfold TextInput.sanitize
      split <;> rfl
    simp only [showNotification, showEmptyState, Option.map_some', TextInput.setValue, hsan]
    split <;> simp_all
  · intro ht
    simp [clearText, ht]

/-! ## Insertion at the caret -/

theorem substring_zero (s : JSString) (p : Nat) (hp : p ≤ s.length) :
    substring s 0 p = s.take p := by
  simp [substring, Nat.min_eq_left hp]

theorem substringFrom_eq (s : JSString) (p : Nat) (hp : p ≤ s.length) :
    substringFrom s p = s.drop p := by
  simp [substringFrom, substring, Nat.min_eq_left hp, Nat.max_eq_right hp]

theorem normalizeNewlines_eq_self (s : JSString) (h : 0x0D ∉ s) : normalizeNewlines s = s := by
  induction s with
  | nil => rfl
  | cons c rest ih =>
    rw [List.mem_cons, not_or] at h
    have hc : c ≠ 0x0D := fun heq => h.1 heq.symm
    unfold normalizeNewlines
    split
    · next heq => exact absurd (List.cons.inj heq).1 hc
    · next heq => exact absurd (List.cons.inj heq).1 hc
    · next heq =>
      obtain ⟨h1, h2⟩ := List.cons.inj heq
      subst h1 h2
      rw [ih h.2]
    · next heq => cases heq

theorem stripNewlines_eq_self (s : JSString) (hcr : 0x0D ∉ s) (hlf : 0x0A ∉ s) :
    stripNewlines s = s := by
  unfold stripNewlines
  rw [List.filter_eq_self]
  intro c hc
  have h1 : c ≠ 0x0A := fun heq => hlf (heq ▸ hc)
  have h2 : c ≠ 0x0D := fun heq => hcr (heq ▸ hc)
  simp [h1, h2]

theorem sanitize_eq_self (t : TextInput) (s : JSString) (hcr : 0x0D ∉ s)
    (hlf : t.multiline = false → 0x0A ∉ s) : t.sanitize s = s := by
  unfold TextInput.sanitize
  split
  · exact normalizeNewlines_eq_self s hcr
  · next hm => exact stripNewlines_eq_self s hcr (hlf (by simpa using hm))

/-- C10, at a `textarea` holding `ab` with the caret at 1, for the inserted string of
a carriage return and a line feed: the field normalises the pair to one line feed,
so that the value is `a`, line feed, `b`, not `a` followed by the inserted string
and `b`, and the caret, set to `1 + 2`, stands at the end, after `b`. -/
theorem carriage_return_is_normalized :
    (insertEmoji true [0x0D, 0x0A] (examplePage (lit "ab") 1)).textInput =
      some ⟨[0x61, 0x0A, 0x62], 3, 3, true, [], true⟩ ∧
    [0x61, 0x0A, 0x62] ≠ (lit "ab").take 1 ++ [0x0D, 0x0A] ++ (lit "ab").drop 1 ∧
    ([0x61, 0x0A, 0x62] : JSString).drop 3 ≠ (lit "ab").drop 1 := by decide

/-- C10, amended. With the controller set up and the text field on the page holding
`v` with a collapsed selection at `p ≤ length v`, for an inserted string `e` such
that `v` and `e` hold no carriage return, nor a line feed when the field is a
single-line `input`: `insertEmoji e` sets the value to the first `p` code units of
`v`, then `e`, then the rest of `v`, and puts the selection start and end at
`p + length e`; the text before the old caret and the text after the new caret are
those of `v`. -/
theorem insertEmoji_at_caret (st : Page) (t : TextInput) (e : JSString) (p : Nat)
    (ht : st.textInput = some t) (hs : t.selectionStart = p) (he : t.selectionEnd = p)
    (hp : p ≤ t.value.length)
    (hcr : 0x0D ∉ t.value ∧ 0x0D ∉ e)
    (hlf : t.multiline = false → 0x0A ∉ t.value ∧ 0x0A ∉ e) :
    ∃ t1, (insertEmoji true e st).textInput = some t1 ∧
      t1.value = t.value.take p ++ e ++ t.value.drop p ∧
      t1.selectionStart = p + e.length ∧ t1.selectionEnd = p + e.length ∧
      t1.value.take p = t.value.take p ∧
      t1.value.drop (p + e.length) = t.value.drop p := by
  have hsan : t.sanitize (t.value.take p ++ e ++ t.value.drop p) =
      t.value.take p ++ e ++ t.value.drop p := by
    apply sanitize_eq_self
    · simp only [List.mem_append, not_or]
      exact ⟨⟨fun h => hcr.1 (List.mem_of_mem_take h), hcr.2⟩,
        fun h => hcr.1 (List.mem_of_mem_drop h)⟩
    · intro hm
      simp only [List.mem_append, not_or]
      exact ⟨⟨fun h => (hlf hm).1 (List.mem_of_mem_take h), (hlf hm).2⟩,
        fun h => (hlf hm).1 (List.mem_of_mem_drop h)⟩
  have hval : ((t.setValue (substring t.value 0 p ++ e ++ substringFrom t.value p)).value)
      = t.value.take p ++ e ++ t.value.drop p := by
    rw [substring_zero _ _ hp, substringFrom_eq _ _ hp]
    unfold TextInput.setValue
    rw [hsan]
    split
    · next h => exact h.symm
    · rfl
  have hlen : (t.value.take p ++ e ++ t.value.drop p).length = t.value.length + e.length := by
    simp [List.length_take, Nat.min_eq_left hp]
    omega
  have hins : (insertEmoji true e st).textInput =
      some ((((t.setValue (substring t.value 0 p ++ e ++ substringFrom t.value p)).focus).setSelectionEnd
        (p + e.length)).setSelectionStart (p + e.length)) := by
    simp [insertEmoji, ht, hs, he]
  refine ⟨_, hins, ?_, ?_, ?_, ?_, ?_⟩
  · simpa [TextInput.setSelectionStart, TextInput.setSelectionEnd, TextInput.setSelectionRange,
      TextInput.focus] using hval
  · simp only [TextInput.setSelectionStart, TextInput.setSelectionEnd,
      TextInput.setSelectionRange, TextInput.focus, hval, hlen]
    split <;> split <;> omega
  · simp only [TextInput.setSelectionStart, TextInput.setSelectionEnd,
      TextInput.setSelectionRange, TextInput.focus, hval, hlen]
    split <;> omega
  · simp only [TextInput.setSelectionStart, TextInput.setSelectionEnd,
      TextInput.setSelectionRange, TextInput.focus, hval]
    simp [List.take_append_eq_append_take, List.length_take, Nat.min_eq_left hp]
  · simp only [TextInput.setSelectionStart, TextInput.setSelectionEnd,
      TextInput.setSelectionRange, TextInput.focus, hval]
    simp [List.drop_append_eq_append_drop, List.length_take, Nat.min_eq_left hp]

/-! ## The emotion breakdown -/

theorem renderRow_entry (topLabel : JSString) (entry : JSString × F64) :
    ((renderRow topLabel entry).emotion, (renderRow topLabel entry).score) = entry := rfl

theorem renderRowFor_entry (topLabel : Option JSString) (entry : JSString × F64) :
    ((renderRowFor topLabel entry).emotion, (renderRowFor topLabel entry).score) = entry := by
  cases topLabel <;> rfl

theorem displayRows_entries (data : AnalysisResponse) :
    (displayRows data).map (fun r => (r.emotion, r.score)) = sortedEntries (emotionScoresOf data) := by
  simp [displayRows, List.map_map, Function.comp_def, renderRowFor_entry]

/-- The markup `displayResults` assigns to the results container, for a response with
text `t`: the top card, the rows in their order, and the panel of the original
text. -/
theorem displayResults_assigns (now : JSString) (data : AnalysisResponse) (st : Page)
    (c l t : JSString) (hc : st.resultsContainer = some c)
    (hl : (topEmotionOf data).label = some l) (ht : data.text = some t) :
    displayResults now data st =
      .ok { st with
        resultsContainer := some (topCardHTML data ++ ((displayRows data).map Row.html).flatten ++
          originalTextOpenHTML ++ escapeHtml t ++
          originalTextCloseHTML now t data.emojis_found) } := by
  simp [displayResults, hc, resultsHTML, hl, ht]

/-- Whenever `displayResults` returns normally on a page with the results container,
the response has a text and the container holds the markup built from it. -/
theorem displayResults_ok_markup (now : JSString) (data : AnalysisResponse) (st st1 : Page)
    (c : JSString) (hc : st.resultsContainer = some c)
    (h : displayResults now data st = .ok st1) :
    ∃ t, data.text = some t ∧
      st1 = { st with
        resultsContainer := some (topCardHTML data ++ ((displayRows data).map Row.html).flatten ++
          originalTextOpenHTML ++ escapeHtml t ++
          originalTextCloseHTML now t data.emojis_found) } := by
  cases hlab : (topEmotionOf data).label with
  | none => simp [displayResults, hc, resultsHTML, hlab] at h
  | some l =>
    cases htx : data.text with
    | none => simp [displayResults, hc, resultsHTML, hlab, htx] at h
    | some t =>
      rw [displayResults_assigns now data st c l t hc hlab htx] at h
      exact ⟨t, rfl, (Except.ok.inj h).symm⟩

theorem tryBlock_success (now : JSString) (status : Nat) (data : AnalysisResponse) (st : Page)
    (hok : responseOk status = true) (hs : data.success = true) :
    tryBlock now (.payload status data) st = displayResults now data st := by
  simp [tryBlock, hok, hs]

theorem append_split_row (p0 em p1 cap p2 mk p3 pct pc p4 col p5 p6 : JSString) :
    p0 ++ em ++ p1 ++ cap ++ p2 ++ mk ++ p3 ++ pct ++ (pc ++ p4) ++ col ++ p5 ++ pct ++ p6 =
      (p0 ++ em ++ p1) ++ cap ++ (p2 ++ mk ++ p3) ++ pct ++ pc ++
        (p4 ++ col ++ p5 ++ pct ++ p6) := by
  simp only [List.append_assoc]

/-- The markup of a row shows the capitalised label of its entry and, after it, its
percentage followed by `%`. -/
theorem Row_html_shows (r : Row) :
    ∃ pre mid post, Row.html r =
      pre ++ capitalize r.emotion ++ mid ++ r.percentage ++ lit "%" ++ post := by
  have hsplit : lit "%; background-color: " = lit "%" ++ lit "; background-color: " := by decide
  unfold Row.html
  rw [hsplit]
  exact ⟨_, _, _, append_split_row _ _ _ _ _ _ _ _ _ _ _ _ _⟩

theorem countP_label_eq_zero (es : List (JSString × F64)) (label : JSString)
    (h : label ∉ es.map Prod.fst) :
    es.countP (fun e => decide (e.1 = label)) = 0 := by
  rw [List.countP_eq_zero]
  intro e he hdec
  exact h (List.mem_map.mpr ⟨e, he, of_decide_eq_true hdec⟩)

theorem countP_label_eq_one (es : List (JSString × F64)) (label : JSString)
    (hnodup : (es.map Prod.fst).Nodup) (hmem : label ∈ es.map Prod.fst) :
    es.countP (fun e => decide (e.1 = label)) = 1 := by
  induction es with
  | nil => simp at hmem
  | cons e rest ih =>
    rw [List.map_cons, List.nodup_cons] at hnodup
    rw [List.map_cons, List.mem_cons] at hmem
    by_cases hk : e.1 = label
    · have hz := countP_label_eq_zero rest label (hk ▸ hnodup.1)
      simp [List.countP_cons, hk, hz]
    · have hin : label ∈ rest.map Prod.fst := by
        rcases hmem with h | h
        · exact absurd h.symm hk
        · exact h
      simp [List.countP_cons, hk, ih hnodup.2 hin]

/-! ## The marker of the top emotion in the markup -/

theorem markerGlyph_mem_topMarker : markerGlyph ∈ topMarker := by decide

theorem upperCaseTable_clean : ∀ e ∈ upperCaseTable, markerGlyph ∉ e.2 := by decide!

theorem lookup_some_mem {β : Type} (table : List (Nat × β)) (key : Nat) (v : β)
    (h : table.lookup key = some v) : (key, v) ∈ table := by
  induction table with
  | nil => simp [List.lookup] at h
  | cons e rest ih =>
    obtain ⟨k, w⟩ := e
    by_cases hk : key = k
    · subst hk
      simp [List.lookup] at h
      simp [h]
    · have hne : (key == k) = false := by simpa using hk
      simp only [List.lookup, hne] at h
      exact List.mem_cons_of_mem _ (ih h)

theorem lookup_some_value_mem (table : List (JSString × JSString)) (key v : JSString)
    (h : table.lookup key = some v) : ∃ e ∈ table, e.2 = v := by
  induction table with
  | nil => simp [List.lookup] at h
  | cons e rest ih =>
    obtain ⟨k, w⟩ := e
    by_cases hk : key = k
    · subst hk
      simp [List.lookup] at h
      exact ⟨(key, w), List.mem_cons_self _ _, h⟩
    · have hne : (key == k) = false := by simpa using hk
      simp only [List.lookup, hne] at h
      obtain ⟨e, he, hv⟩ := ih h
      exact ⟨e, List.mem_cons_of_mem _ he, hv⟩

theorem toUpperCase_clean (s : JSString) (hs : markerGlyph ∉ s) : markerGlyph ∉ toUpperCase s := by
  intro h
  unfold toUpperCase at h
  rw [List.mem_flatMap] at h
  obtain ⟨c, hc, hmem⟩ := h
  have hcg : c ≠ markerGlyph := fun heq => hs (heq ▸ hc)
  split_ifs at hmem with h1 h2
  · simp only [List.mem_singleton, markerGlyph] at hmem
    omega
  · simp only [List.mem_singleton] at hmem
    exact hcg hmem.symm
  · cases hl : upperCaseTable.lookup c with
    | none =>
      rw [hl] at hmem
      simp only [Option.getD_none, List.mem_singleton] at hmem
      exact hcg hmem.symm
    | some u =>
      rw [hl] at hmem
      exact upperCaseTable_clean (c, u) (lookup_some_mem _ _ _ hl) hmem

theorem capitalize_examples :
    capitalize (lit "joy") = lit "Joy" ∧ capitalize (lit "élan") = lit "Élan" ∧
    capitalize (lit "ßeta") = lit "SSeta" ∧ capitalize [] = [] := by decide!

theorem capitalize_clean (label : JSString) (hl : markerGlyph ∉ label) :
    markerGlyph ∉ capitalize label := by
  unfold capitalize
  rw [List.mem_append, not_or]
  constructor
  · apply toUpperCase_clean
    intro h
    exact hl (List.mem_of_mem_drop (List.mem_of_mem_take h))
  · intro h
    exact hl (List.mem_of_mem_drop h)

theorem digitChar_clean : ∀ d < 10, (Nat.digitChar d).toNat ≠ markerGlyph := by decide

theorem toDigitsCore_clean (fuel n : Nat) (acc : List Char)
    (hacc : ∀ c ∈ acc, c.toNat ≠ markerGlyph) :
    ∀ c ∈ Nat.toDigitsCore 10 fuel n acc, c.toNat ≠ markerGlyph := by
  induction fuel generalizing n acc with
  | zero => simpa [Nat.toDigitsCore] using hacc
  | succ fuel ih =>
    have hcons : ∀ c ∈ Nat.digitChar (n % 10) :: acc, c.toNat ≠ markerGlyph := by
      intro c hc
      rcases List.mem_cons.mp hc with h | h
      · rw [h]; exact digitChar_clean _ (Nat.mod_lt _ (by decide))
      · exact hacc c h
    unfold Nat.toDigitsCore
    simp only
    split
    · exact hcons
    · exact ih _ _ hcons

theorem numberToString_clean (n : Nat) : markerGlyph ∉ numberToString n := by
  intro h
  unfold numberToString at h
  rw [List.mem_map] at h
  obtain ⟨c, hc, hcn⟩ := h
  exact toDigitsCore_clean _ _ [] (by simp) c hc hcn

theorem toFixed1_clean (x : F64) : markerGlyph ∉ toFixed1 x := by
  unfold toFixed1
  simp only [List.mem_append, not_or]
  exact ⟨⟨numberToString_clean _, by decide⟩, numberToString_clean _⟩

theorem orDefault_clean (table : List (JSString × JSString)) (dflt label : JSString)
    (htab : ∀ e ∈ table, markerGlyph ∉ e.2) (hd : markerGlyph ∉ dflt)
    (hl : markerGlyph ∉ label) :
    markerGlyph ∉ (orDefault (getProperty table label) dflt).toJSString := by
  unfold getProperty
  cases hlook : table.lookup label with
  | some v =>
    obtain ⟨e, he, hv⟩ := lookup_some_value_mem _ _ _ hlook
    simp only [orDefault]
    split
    · simp only [JSValue.toJSString]
      exact hv ▸ htab e he
    · simpa only [JSValue.toJSString] using hd
  | none =>
    simp only
    split
    · simp only [orDefault, JSValue.toJSString]
      split_ifs
      · decide
      · decide
      · simp only [List.mem_append, not_or]
        exact ⟨⟨by decide, hl⟩, by decide⟩
    · simpa only [orDefault, JSValue.toJSString] using hd

theorem getEmotionEmoji_clean (label : JSString) (hl : markerGlyph ∉ label) :
    markerGlyph ∉ (getEmotionEmoji label).toJSString :=
  orDefault_clean _ _ _ (by decide) (by decide) hl

theorem getEmotionColor_clean (label : JSString) (hl : markerGlyph ∉ label) :
    markerGlyph ∉ (getEmotionColor label).toJSString :=
  orDefault_clean _ _ _ (by decide) (by decide) hl

theorem split_at_slot (p0 em p1 cap p2 mk p3 pct p4 col p5 p6 : JSString) :
    p0 ++ em ++ p1 ++ cap ++ p2 ++ mk ++ p3 ++ pct ++ p4 ++ col ++ p5 ++ pct ++ p6 =
      (p0 ++ em ++ p1 ++ cap ++ p2) ++ mk ++ (p3 ++ pct ++ p4 ++ col ++ p5 ++ pct ++ p6) := by
  simp only [List.append_assoc]

/-- The markup of a row is its template around the slot of the marker; when the
values of the row are free of the glyph of the marker, so is all of it but the
slot. -/
theorem Row_html_marker_slot (r : Row) (hemo : markerGlyph ∉ r.emoji.toJSString)
    (hcap : markerGlyph ∉ capitalize r.emotion) (hpct : markerGlyph ∉ r.percentage)
    (hcol : markerGlyph ∉ r.color.toJSString) :
    ∃ pre post, Row.html r = pre ++ (if r.top then topMarker else []) ++ post ∧
      markerGlyph ∉ pre ∧ markerGlyph ∉ post := by
  unfold Row.html
  refine ⟨_, _, split_at_slot _ _ _ _ _ _ _ _ _ _ _ _, ?_, ?_⟩
  · simp only [List.mem_append, not_or]
    exact ⟨⟨⟨⟨by decide!, hemo⟩, by decide!⟩, hcap⟩, by decide!⟩
  · simp only [List.mem_append, not_or]
    exact ⟨⟨⟨⟨⟨⟨by decide!, hpct⟩, by decide!⟩, hcol⟩, by decide!⟩, hpct⟩, by decide!⟩

theorem label_infix_html (r : Row) : capitalize r.emotion <:+: Row.html r := by
  obtain ⟨pre, mid, post, h⟩ := Row_html_shows r
  exact ⟨pre, mid ++ r.percentage ++ lit "%" ++ post, by rw [h]; simp only [List.append_assoc]⟩

theorem marker_infix_of_top (r : Row) (htop : r.top = true) : topMarker <:+: Row.html r := by
  unfold Row.html
  rw [if_pos htop]
  exact ⟨_, _, (split_at_slot _ _ _ _ _ _ _ _ _ _ _ _).symm⟩

theorem marker_infix_iff_top (r : Row) (hemo : markerGlyph ∉ r.emoji.toJSString)
    (hcap : markerGlyph ∉ capitalize r.emotion) (hpct : markerGlyph ∉ r.percentage)
    (hcol : markerGlyph ∉ r.color.toJSString) :
    topMarker <:+: Row.html r ↔ r.top = true := by
  constructor
  · intro hin
    by_contra htop
    obtain ⟨pre, post, hhtml, hpre, hpost⟩ := Row_html_marker_slot r hemo hcap hpct hcol
    have hmem : markerGlyph ∈ Row.html r := hin.subset markerGlyph_mem_topMarker
    rw [hhtml, if_neg htop] at hmem
    simp only [List.append_nil, List.mem_append] at hmem
    rcases hmem with h | h
    · exact hpre h
    · exact hpost h
  · exact marker_infix_of_top r

theorem renderRowFor_clean (topLabel : Option JSString) (entry : JSString × F64)
    (he : markerGlyph ∉ entry.1) :
    markerGlyph ∉ (renderRowFor topLabel entry).emoji.toJSString ∧
    markerGlyph ∉ capitalize (renderRowFor topLabel entry).emotion ∧
    markerGlyph ∉ (renderRowFor topLabel entry).percentage ∧
    markerGlyph ∉ (renderRowFor topLabel entry).color.toJSString := by
  cases topLabel <;>
    exact ⟨getEmotionEmoji_clean _ he, capitalize_clean _ he, toFixed1_clean _,
      getEmotionColor_clean _ he⟩

/-- C2. For a response with a successful status and `success` true, on a page
with the results container, `analyzeText` passes the payload to `displayResults`,
which, when the payload has a top label and a text, assigns to the container the
top card, then the markup of the rows in their order, then the text panel, and
which never returns normally without having assigned this markup. The rows
are the entries of `emotion_scores` in another order (a permutation), every row has
a score at least as large as that of each row after it, and the markup of a row
shows its capitalised label and its percentage. The scores `joy` 0.91, `surprise`
0.05, `neutral` 0.04 give the rows `joy`, `surprise`, `neutral`, also when the
payload lists them in the opposite order. -/
theorem rows_sorted_by_descending_score (now : JSString) (status : Nat)
    (data : AnalysisResponse) (st : Page) (c l t : JSString)
    (hok : responseOk status = true) (hs : data.success = true)
    (hc : st.resultsContainer = some c) (hl : (topEmotionOf data).label = some l)
    (ht : data.text = some t) :
    tryBlock now (.payload status data) st = displayResults now data st ∧
    displayResults now data st =
      .ok { st with
        resultsContainer := some (topCardHTML data ++ ((displayRows data).map Row.html).flatten ++
          originalTextOpenHTML ++ escapeHtml t ++
          originalTextCloseHTML now t data.emojis_found) } ∧
    (analyzeComplete now (.payload status data) st).resultsContainer =
      some (topCardHTML data ++ ((displayRows data).map Row.html).flatten ++
        originalTextOpenHTML ++ escapeHtml t ++ originalTextCloseHTML now t data.emojis_found) ∧
    (∀ (data1 : AnalysisResponse) (st1 : Page), displayResults now data1 st = .ok st1 →
      ∃ t1, data1.text = some t1 ∧ st1.resultsContainer =
        some (topCardHTML data1 ++ ((displayRows data1).map Row.html).flatten ++
          originalTextOpenHTML ++ escapeHtml t1 ++
          originalTextCloseHTML now t1 data1.emojis_found)) ∧
    ((displayRows data).map fun r => (r.emotion, r.score)).Perm (emotionScoresOf data) ∧
    (displayRows data).Sorted (fun a b => b.score ≤ a.score) ∧
    (∀ r ∈ displayRows data, ∃ pre mid post, Row.html r =
      pre ++ capitalize r.emotion ++ mid ++ r.percentage ++ lit "%" ++ post) ∧
    (displayRows exampleResponse).map Row.emotion = [lit "joy", lit "surprise", lit "neutral"] ∧
    (displayRows { exampleResponse with
        emotion_scores := some [(lit "neutral", ofDecimal 4 100), (lit "surprise", ofDecimal 5 100),
          (lit "joy", ofDecimal 91 100)] }).map Row.emotion =
      [lit "joy", lit "surprise", lit "neutral"] := by
  have htry := tryBlock_success now status data st hok hs
  have hdisp := displayResults_assigns now data st c l t hc hl ht
  refine ⟨htry, hdisp, ?_, ?_, ?_, ?_, fun r _ => Row_html_shows r, by decide, by decide⟩
  · simp only [analyzeComplete, htry, hdisp]
    rfl
  · intro data1 st1 h1
    obtain ⟨t1, ht1, hst1⟩ := displayResults_ok_markup now data1 st st1 c hc h1
    exact ⟨t1, ht1, by rw [hst1]⟩
  · rw [displayRows_entries]
    exact List.perm_insertionSort _ _
  · have hsorted : (sortedEntries (emotionScoresOf data)).Sorted scoreDescending :=
      List.sorted_insertionSort _ _
    unfold displayRows
    refine List.pairwise_map.mpr (hsorted.imp ?_)
    intro a b hab
    rw [show (renderRowFor (topEmotionOf data).label b).score = b.2 from
        congrArg Prod.snd (renderRowFor_entry _ b),
      show (renderRowFor (topEmotionOf data).label a).score = a.2 from
        congrArg Prod.snd (renderRowFor_entry _ a)]
    exact hab

/-- C3, at a response with the scores `joy` 0.91 and, under a label that is the text
of the marker span, 0.05, and the top emotion `joy`: the labels are distinct and
`joy` is among them, the row of the second label is not the row of the top emotion,
yet its markup, which shows the label as it is, carries the marker too, so that two
rows carry it. -/
theorem marker_in_label_is_rendered_twice :
    ((emotionScoresOf markerLabelResponse).map Prod.fst).Nodup ∧
    (topEmotionOf markerLabelResponse).label = some (lit "joy") ∧
    lit "joy" ∈ (emotionScoresOf markerLabelResponse).map Prod.fst ∧
    (displayRows markerLabelResponse).map Row.emotion = [lit "joy", topMarker] ∧
    (∀ r ∈ displayRows markerLabelResponse, topMarker <:+: Row.html r) ∧
    ((displayRows markerLabelResponse).filter
      fun r => decide (topMarker <:+: Row.html r)).length = 2 := by
  have hcap : capitalize topMarker = topMarker := by decide
  have hrows : displayRows markerLabelResponse =
      [renderRow (lit "joy") (lit "joy", ofDecimal 91 100),
        renderRow (lit "joy") (topMarker, ofDecimal 5 100)] := by decide
  have hall : ∀ r ∈ displayRows markerLabelResponse, topMarker <:+: Row.html r := by
    intro r hr
    rw [hrows] at hr
    simp only [List.mem_cons, List.mem_singleton, List.not_mem_nil, or_false] at hr
    rcases hr with h | h
    · rw [h]
      exact marker_infix_of_top _ (by decide)
    · have hinf := label_infix_html r
      rw [h] at hinf ⊢
      rw [show (renderRow (lit "joy") (topMarker, ofDecimal 5 100)).emotion = topMarker from rfl,
        hcap] at hinf
      exact hinf
  refine ⟨by decide, by decide, by decide, by decide, hall, ?_⟩
  rw [List.filter_eq_self.mpr (fun r hr => decide_eq_true (hall r hr)), hrows]
  rfl

/-- C3, amended. For a response whose top emotion has a label that is one of the
distinct labels of `emotion_scores`, none of which contains the glyph of the marker
(the code unit `U+DFAF` of `🎯`), on a page with the results container and for a
payload with a text: `displayResults` assigns the markup built from the rows;
exactly one row carries the marker span in its markup; a row carries it if and
only if its label is `top_emotion.label`; and in that row the span stands once, the
markup before and after it being free of its glyph. -/
theorem top_marker_exactly_once (now : JSString) (data : AnalysisResponse) (st : Page)
    (te : TopEmotion) (l c t : JSString) (es : List (JSString × F64))
    (htop : data.top_emotion = some te) (hlabel : te.label = some l)
    (hscores : data.emotion_scores = some es)
    (hnodup : (es.map Prod.fst).Nodup) (hmem : l ∈ es.map Prod.fst)
    (hclean : ∀ k ∈ es.map Prod.fst, markerGlyph ∉ k)
    (hc : st.resultsContainer = some c) (ht : data.text = some t) :
    displayResults now data st =
      .ok { st with
        resultsContainer := some (topCardHTML data ++ ((displayRows data).map Row.html).flatten ++
          originalTextOpenHTML ++ escapeHtml t ++
          originalTextCloseHTML now t data.emojis_found) } ∧
    ((displayRows data).filter fun r => decide (topMarker <:+: Row.html r)).length = 1 ∧
    (∀ r ∈ displayRows data, (topMarker <:+: Row.html r ↔ r.emotion = l)) ∧
    (∀ r ∈ displayRows data, r.emotion = l →
      ∃ pre post, Row.html r = pre ++ topMarker ++ post ∧
        markerGlyph ∉ pre ∧ markerGlyph ∉ post) ∧
    ((displayRows data).filter fun r => r.top).length = 1 ∧
    (∀ r ∈ displayRows data, (r.top = true ↔ r.emotion = l)) := by
  have hl : (topEmotionOf data).label = some l := by simp [topEmotionOf, htop, hlabel]
  have hes : emotionScoresOf data = es := by simp [emotionScoresOf, hscores]
  have hperm : (sortedEntries es).Perm es := List.perm_insertionSort _ _
  have hrow : ∀ r ∈ displayRows data, ∃ e ∈ es, r = renderRow l e := by
    intro r hr
    unfold displayRows at hr
    rw [hes, hl] at hr
    obtain ⟨e, he, rfl⟩ := List.mem_map.mp hr
    exact ⟨e, hperm.subset he, rfl⟩
  have hflag : ∀ r ∈ displayRows data, (r.top = true ↔ r.emotion = l) := by
    intro r hr
    obtain ⟨e, _, rfl⟩ := hrow r hr
    simp [renderRow]
  have hrowclean : ∀ r ∈ displayRows data,
      markerGlyph ∉ r.emoji.toJSString ∧ markerGlyph ∉ capitalize r.emotion ∧
      markerGlyph ∉ r.percentage ∧ markerGlyph ∉ r.color.toJSString := by
    intro r hr
    obtain ⟨e, he, rfl⟩ := hrow r hr
    exact renderRowFor_clean (some l) e (hclean e.1 (List.mem_map.mpr ⟨e, he, rfl⟩))
  have hspan : ∀ r ∈ displayRows data, (topMarker <:+: Row.html r ↔ r.top = true) := by
    intro r hr
    obtain ⟨h1, h2, h3, h4⟩ := hrowclean r hr
    exact marker_infix_iff_top r h1 h2 h3 h4
  have hcount : ((displayRows data).filter fun r => r.top).length = 1 := by
    have h1 : ((displayRows data).filter fun r => r.top).length
        = (sortedEntries es).countP (fun e => decide (e.1 = l)) := by
      rw [← List.countP_eq_length_filter]
      unfold displayRows
      rw [List.countP_map, hes, hl]
      rfl
    rw [h1, hperm.countP_eq]
    exact countP_label_eq_one es l hnodup hmem
  have hfilter : (displayRows data).filter (fun r => decide (topMarker <:+: Row.html r)) =
      (displayRows data).filter (fun r => r.top) :=
    List.filter_congr fun r hr =>
      (decide_eq_decide.mpr (hspan r hr)).trans Bool.decide_eq_true
  have hslot : ∀ r ∈ displayRows data, r.emotion = l →
      ∃ pre post, Row.html r = pre ++ topMarker ++ post ∧
        markerGlyph ∉ pre ∧ markerGlyph ∉ post := fun r hr hrl => by
    obtain ⟨h1, h2, h3, h4⟩ := hrowclean r hr
    obtain ⟨pre, post, hhtml, hpre, hpost⟩ := Row_html_marker_slot r h1 h2 h3 h4
    rw [if_pos ((hflag r hr).mpr hrl)] at hhtml
    exact ⟨pre, post, hhtml, hpre, hpost⟩
  have hcarry : ((displayRows data).filter
      fun r => decide (topMarker <:+: Row.html r)).length = 1 := by
    rw [hfilter]
    exact hcount
  have hiff : ∀ r ∈ displayRows data, (topMarker <:+: Row.html r ↔ r.emotion = l) :=
    fun r hr => (hspan r hr).trans (hflag r hr)
  exact ⟨displayResults_assigns now data st c l t hc hl ht, hcarry, hiff, hslot, hcount, hflag⟩

/-! ## Escaping of the original text -/

theorem escapeHtml_cons (c : Nat) (t : JSString) :
    escapeHtml (c :: t) =
      (if c = 0x26 then lit "&amp;" else if c = 0xA0 then lit "&nbsp;"
        else if c = 0x3C then lit "&lt;" else if c = 0x3E then lit "&gt;" else [c])
      ++ escapeHtml t := by
  simp [escapeHtml, List.flatMap_cons]

theorem lit_amp : lit "&amp;" = [0x26, 0x61, 0x6D, 0x70, 0x3B] := by decide

theorem lit_nbsp : lit "&nbsp;" = [0x26, 0x6E, 0x62, 0x73, 0x70, 0x3B] := by decide

theorem lit_lt : lit "&lt;" = [0x26, 0x6C, 0x74, 0x3B] := by decide

theorem lit_gt : lit "&gt;" = [0x26, 0x67, 0x74, 0x3B] := by decide

theorem entityNames_eq :
    entityNames = [[0x61, 0x6D, 0x70, 0x3B], [0x6E, 0x62, 0x73, 0x70, 0x3B], [0x6C, 0x74, 0x3B],
      [0x67, 0x74, 0x3B]] := by decide

theorem escapeHtml_no_angle (t : JSString) : 0x3C ∉ escapeHtml t ∧ 0x3E ∉ escapeHtml t := by
  induction t with
  | nil => simp [escapeHtml]
  | cons c t ih =>
    rw [escapeHtml_cons, lit_amp, lit_nbsp, lit_lt, lit_gt]
    split_ifs with h1 h2 h3 h4
    · simpa using ih
    · simpa using ih
    · simpa using ih
    · simpa using ih
    · simp only [List.singleton_append, List.mem_cons, not_or]
      exact ⟨⟨fun h => h3 h.symm, ih.1⟩, ⟨fun h => h4 h.symm, ih.2⟩⟩

theorem decodeEntities_escapeHtml (t : JSString) : decodeEntities (escapeHtml t) = t := by
  induction t with
  | nil => simp [escapeHtml, decodeEntities]
  | cons c t ih =>
    rw [escapeHtml_cons, lit_amp, lit_nbsp, lit_lt, lit_gt]
    split_ifs with h1 h2 h3 h4
    · simp [decodeEntities, ih, h1]
    · simp [decodeEntities, ih, h2]
    · simp [decodeEntities, ih, h3]
    · simp [decodeEntities, ih, h4]
    · simp [decodeEntities, ih, h1]

theorem escapeHtml_ampersand (t : JSString) (i : Nat)
    (h : (escapeHtml t)[i]? = some 0x26) :
    ∃ name ∈ entityNames, name <+: (escapeHtml t).drop (i + 1) := by
  induction t generalizing i with
  | nil => simp [escapeHtml] at h
  | cons c t ih =>
    rw [escapeHtml_cons, lit_amp, lit_nbsp, lit_lt, lit_gt] at h ⊢
    rw [entityNames_eq] at ih ⊢
    split_ifs at h ⊢ with h1 h2 h3 h4
    · match i, h with
      | 0, _ => exact ⟨[0x61, 0x6D, 0x70, 0x3B], by simp, by simp⟩
      | 1, h => simp at h
      | 2, h => simp at h
      | 3, h => simp at h
      | 4, h => simp at h
      | i + 5, h =>
        obtain ⟨n, hn, hp⟩ := ih i (by simpa using h)
        exact ⟨n, hn, by simpa using hp⟩
    · match i, h with
      | 0, _ => exact ⟨[0x6E, 0x62, 0x73, 0x70, 0x3B], by simp, by simp⟩
      | 1, h => simp at h
      | 2, h => simp at h
      | 3, h => simp at h
      | 4, h => simp at h
      | 5, h => simp at h
      | i + 6, h =>
        obtain ⟨n, hn, hp⟩ := ih i (by simpa using h)
        exact ⟨n, hn, by simpa using hp⟩
    · match i, h with
      | 0, _ => exact ⟨[0x6C, 0x74, 0x3B], by simp, by simp⟩
      | 1, h => simp at h
      | 2, h => simp at h
      | 3, h => simp at h
      | i + 4, h =>
        obtain ⟨n, hn, hp⟩ := ih i (by simpa using h)
        exact ⟨n, hn, by simpa using hp⟩
    · match i, h with
      | 0, _ => exact ⟨[0x67, 0x74, 0x3B], by simp, by simp⟩
      | 1, h => simp at h
      | 2, h => simp at h
      | 3, h => simp at h
      | i + 4, h =>
        obtain ⟨n, hn, hp⟩ := ih i (by simpa using h)
        exact ⟨n, hn, by simpa using hp⟩
    · match i, h with
      | 0, h => simp at h; exact absurd h h1
      | i + 1, h =>
        obtain ⟨n, hn, hp⟩ := ih i (by simpa using h)
        exact ⟨n, hn, by simpa using hp⟩

/-- C4. On a page with the results container, for a response with a top label and
the original text `t`, `displayResults` assigns to the container markup that holds
`escapeHtml t` between the opening and the closing markup of the text panel, and
for no response does it return normally without having inserted the escaped text
of that response. This
fragment has no `<` and no `>`; every `&` in it is followed by one of `amp;`,
`nbsp;`, `lt;`, `gt;`; and decoding these character references gives back `t`.
The text `<script>a&b</script>` is escaped to
`&lt;script&gt;a&amp;b&lt;/script&gt;`. -/
theorem original_text_is_escaped (now : JSString) (data : AnalysisResponse) (st : Page)
    (c l t : JSString) (hc : st.resultsContainer = some c)
    (hl : (topEmotionOf data).label = some l) (ht : data.text = some t) :
    displayResults now data st =
      .ok { st with
        resultsContainer := some (topCardHTML data ++ ((displayRows data).map Row.html).flatten ++
          originalTextOpenHTML ++ escapeHtml t ++
          originalTextCloseHTML now t data.emojis_found) } ∧
    (∀ (data1 : AnalysisResponse) (st1 : Page), displayResults now data1 st = .ok st1 →
      ∃ t1, data1.text = some t1 ∧ st1.resultsContainer =
        some (topCardHTML data1 ++ ((displayRows data1).map Row.html).flatten ++
          originalTextOpenHTML ++ escapeHtml t1 ++
          originalTextCloseHTML now t1 data1.emojis_found)) ∧
    0x3C ∉ escapeHtml t ∧ 0x3E ∉ escapeHtml t ∧
    (∀ i, (escapeHtml t)[i]? = some 0x26 →
      ∃ name ∈ entityNames, name <+: (escapeHtml t).drop (i + 1)) ∧
    decodeEntities (escapeHtml t) = t ∧
    escapeHtml (lit "<script>a&b</script>") = lit "&lt;script&gt;a&amp;b&lt;/script&gt;" :=
  ⟨displayResults_assigns now data st c l t hc hl ht,
    fun data1 st1 h1 => by
      obtain ⟨t1, ht1, hst1⟩ := displayResults_ok_markup now data1 st st1 c hc h1
      exact ⟨t1, ht1, by rw [hst1]⟩,
    (escapeHtml_no_angle t).1,
    (escapeHtml_no_angle t).2, escapeHtml_ampersand t, decodeEntities_escapeHtml t, by decide⟩

/-! ## The lookup tables -/

theorem getEmotion_known :
    getEmotionColor (lit "joy") = .str (lit "#FFD700") ∧
    getEmotionColor (lit "sadness") = .str (lit "#4169E1") ∧
    getEmotionColor (lit "anger") = .str (lit "#FF4500") ∧
    getEmotionColor (lit "fear") = .str (lit "#8A2BE2") ∧
    getEmotionColor (lit "surprise") = .str (lit "#FF69B4") ∧
    getEmotionColor (lit "love") = .str (lit "#FF1493") ∧
    getEmotionColor (lit "neutral") = .str (lit "#808080") ∧
    getEmotionEmoji (lit "joy") = .str (lit "😄") ∧
    getEmotionEmoji (lit "sadness") = .str (lit "😢") ∧
    getEmotionEmoji (lit "anger") = .str (lit "😡") ∧
    getEmotionEmoji (lit "fear") = .str (lit "😨") ∧
    getEmotionEmoji (lit "surprise") = .str (lit "😲") ∧
    getEmotionEmoji (lit "love") = .str (lit "❤️") ∧
    getEmotionEmoji (lit "neutral") = .str (lit "😐") := by decide

theorem lookup_eq_none_of_not_mem (table : List (JSString × JSString)) (key : JSString)
    (h : key ∉ table.map Prod.fst) : table.lookup key = none := by
  induction table with
  | nil => rfl
  | cons e rest ih =>
    rw [List.map_cons, List.mem_cons, not_or] at h
    obtain ⟨k, v⟩ := e
    have hne : (key == k) = false := by
      simpa using h.1
    simp only [List.lookup, hne]
    exact ih h.2

theorem getEmotion_unknown (label : JSString) (hk : label ∉ knownLabels)
    (hp : label ∉ objectPrototypeKeys) :
    getEmotionColor label = .str (lit "#808080") ∧ getEmotionEmoji label = .str (lit "😐") := by
  have h1 : emotionColors.lookup label = none :=
    lookup_eq_none_of_not_mem _ _ (by simpa [emotionColors, knownLabels] using hk)
  have h2 : emotionEmojis.lookup label = none :=
    lookup_eq_none_of_not_mem _ _ (by simpa [emotionEmojis, knownLabels] using hk)
  simp [getEmotionColor, getEmotionEmoji, getProperty, h1, h2, hp, orDefault]

/-- C5, at the label `constructor`, which is none of the seven known labels: the
lookup `colors[emotion]` finds `Object.prototype.constructor`, a function and so
truthy, and `getEmotionColor` returns it instead of the default `#808080`; the row
then gets the source text of that function as its colour. `getEmotionEmoji` does
the same instead of returning the default glyph. Neither call raises. -/
theorem prototype_key_is_not_defaulted :
    lit "constructor" ∉ knownLabels ∧
    getEmotionColor (lit "constructor") = .inherited (lit "constructor") ∧
    getEmotionColor (lit "constructor") ≠ .str (lit "#808080") ∧
    (getEmotionColor (lit "constructor")).toJSString =
      lit "function Object() \x7b [native code] \x7d" ∧
    getEmotionEmoji (lit "constructor") = .inherited (lit "constructor") ∧
    getEmotionEmoji (lit "constructor") ≠ .str (lit "😐") := by decide

/-! ## The message of the error panel -/

theorem failure_messages (now : JSString) (st : Page) (status : Nat) (data : AnalysisResponse) :
    (responseOk status = false →
      tryBlock now (.payload status data) st =
        .error (jsOr data.error (jsOr data.message (lit "Server error: " ++ numberToString status)))) ∧
    (responseOk status = true → data.success = false →
      tryBlock now (.payload status data) st = .error (jsOr data.message (lit "Analysis failed"))) := by
  constructor
  · intro h
    simp [tryBlock, h]
  · intro h hs
    simp [tryBlock, h, hs]

/-- C6, at the response with HTTP status 200 and payload
`success: false, error: "text too long"`: the branch for `success` false reads
only the `message` field, so the error panel shows the fallback `Analysis failed`
and not the message of the server, while the branch for a non-2xx status (here 400)
shows the `error` field of the same payload. The example of the specification, with
the text in the `message` field, shows `text too long`. -/
theorem error_field_ignored_when_status_ok (now : JSString) (st : Page) :
    tryBlock now (.payload 200 (failedPayload (some (lit "text too long")) none)) st =
      .error (lit "Analysis failed") ∧
    (analyzeComplete now (.payload 200 (failedPayload (some (lit "text too long")) none))
        st).resultsContainer =
      st.resultsContainer.map (fun _ => errorPanelHTML (lit "Analysis failed")) ∧
    tryBlock now (.payload 400 (failedPayload (some (lit "text too long")) none)) st =
      .error (lit "text too long") ∧
    tryBlock now (.payload 200 (failedPayload none (some (lit "text too long")))) st =
      .error (lit "text too long") := by
  have h200 : tryBlock now (.payload 200 (failedPayload (some (lit "text too long")) none)) st =
      .error (lit "Analysis failed") :=
    ((failure_messages now st 200 _).2 (by decide) rfl).trans (congrArg Except.error (by decide))
  have h400 : tryBlock now (.payload 400 (failedPayload (some (lit "text too long")) none)) st =
      .error (lit "text too long") :=
    ((failure_messages now st 400 _).1 (by decide)).trans (congrArg Except.error (by decide))
  have hmsg : tryBlock now (.payload 200 (failedPayload none (some (lit "text too long")))) st =
      .error (lit "text too long") :=
    ((failure_messages now st 200 _).2 (by decide) rfl).trans (congrArg Except.error (by decide))
  have hm : shownMessage (lit "Analysis failed") = lit "Analysis failed" := by decide
  refine ⟨h200, ?_, h400, hmsg⟩
  simp only [analyzeComplete, h200, hm]
  rfl

/-! ## The rounding of `roundNearestEven` is that of IEEE-754 -/

theorem ulpShift_foldl_spec (q : Nat) (steps : List Nat) (sh : Nat)
    (h : sh = 0 ∨ 2 ^ 52 ≤ q / 2 ^ sh) :
    steps.foldl (fun sh step => if 2 ^ 52 ≤ q / 2 ^ (sh + step) then sh + step else sh) sh = 0 ∨
    2 ^ 52 ≤ q / 2 ^ steps.foldl
      (fun sh step => if 2 ^ 52 ≤ q / 2 ^ (sh + step) then sh + step else sh) sh := by
  induction steps generalizing sh with
  | nil => exact h
  | cons step rest ih =>
    rw [List.foldl_cons]
    apply ih
    split
    · next hc => exact Or.inr hc
    · exact h

theorem ulpShift_spec (q : Nat) : ulpShift q = 0 ∨ 2 ^ 52 ≤ q / 2 ^ ulpShift q :=
  ulpShift_foldl_spec q _ 0 (Or.inl rfl)

theorem ulpShift_step (q sh step : Nat) (h : q / 2 ^ (sh + (step + step)) < 2 ^ 52) :
    q / 2 ^ ((if 2 ^ 52 ≤ q / 2 ^ (sh + step) then sh + step else sh) + step) < 2 ^ 52 := by
  split
  · rwa [Nat.add_assoc]
  · next hc => exact Nat.lt_of_not_le hc

theorem ulpShift_lt (q : Nat) (hq : q < 2 ^ 2100) : q / 2 ^ ulpShift q < 2 ^ 53 := by
  have h0 : q / 2 ^ (0 + (1024 + 1024)) < 2 ^ 52 := by
    rw [Nat.div_lt_iff_lt_mul (Nat.two_pow_pos _), ← Nat.pow_add]
    exact hq
  have h1 := ulpShift_step q _ 1024 h0
  have h2 := ulpShift_step q _ 512 h1
  have h3 := ulpShift_step q _ 256 h2
  have h4 := ulpShift_step q _ 128 h3
  have h5 := ulpShift_step q _ 64 h4
  have h6 := ulpShift_step q _ 32 h5
  have h7 := ulpShift_step q _ 16 h6
  have h8 := ulpShift_step q _ 8 h7
  have h9 := ulpShift_step q _ 4 h8
  have h10 := ulpShift_step q _ 2 h9
  have h11 := ulpShift_step q _ 1 h10
  have hfin : q / 2 ^ (ulpShift q + 1) < 2 ^ 52 := h11
  rw [Nat.pow_succ, ← Nat.div_div_eq_div_mul] at hfin
  omega

theorem double_gap (v sh k : Nat) (hv : isDouble v) (hk : sh = 0 ∨ 2 ^ 52 ≤ k) :
    v ≤ k * 2 ^ sh ∨ (k + 1) * 2 ^ sh ≤ v := by
  obtain ⟨m, e, hm, rfl⟩ := hv
  by_cases he : sh ≤ e
  · have hsplit : m * 2 ^ e = (m * 2 ^ (e - sh)) * 2 ^ sh := by
      rw [Nat.mul_assoc, ← Nat.pow_add, Nat.sub_add_cancel he]
    rw [hsplit]
    rcases Nat.lt_or_ge k (m * 2 ^ (e - sh)) with h | h
    · exact Or.inr (Nat.mul_le_mul_right _ h)
    · exact Or.inl (Nat.mul_le_mul_right _ h)
  · left
    have hk52 : 2 ^ 52 ≤ k := by
      rcases hk with h | h
      · omega
      · exact h
    calc m * 2 ^ e ≤ 2 ^ 53 * 2 ^ e := Nat.mul_le_mul_right _ (Nat.le_of_lt hm)
      _ = 2 ^ (53 + e) := (Nat.pow_add 2 53 e).symm
      _ ≤ 2 ^ (52 + sh) := Nat.pow_le_pow_right (by decide) (by omega)
      _ = 2 ^ 52 * 2 ^ sh := Nat.pow_add 2 52 sh
      _ ≤ k * 2 ^ sh := Nat.mul_le_mul_right _ hk52

theorem roundNearestEven_isDouble (num den : Nat) (hq : num / den < 2 ^ 2100) :
    isDouble (roundNearestEven num den) := by
  have hk : num / (den * 2 ^ ulpShift (num / den)) < 2 ^ 53 := by
    rw [← Nat.div_div_eq_div_mul]
    exact ulpShift_lt _ hq
  have hup : isDouble ((num / (den * 2 ^ ulpShift (num / den)) + 1) * 2 ^ ulpShift (num / den)) := by
    rcases Nat.lt_or_ge (num / (den * 2 ^ ulpShift (num / den)) + 1) (2 ^ 53) with h | h
    · exact ⟨_, _, h, rfl⟩
    · have heq : num / (den * 2 ^ ulpShift (num / den)) + 1 = 2 ^ 53 := by omega
      refine ⟨2 ^ 52, ulpShift (num / den) + 1, by decide, ?_⟩
      rw [heq]
      ring
  unfold roundNearestEven
  simp only
  split_ifs
  · exact ⟨_, _, hk, rfl⟩
  · exact hup
  · exact ⟨_, _, hk, rfl⟩
  · exact hup

theorem roundNearestEven_nearest (num den v : Nat) (hv : isDouble v) :
    Nat.dist (roundNearestEven num den * den) num ≤ Nat.dist (v * den) num := by
  have hk : ulpShift (num / den) = 0 ∨
      2 ^ 52 ≤ num / (den * 2 ^ ulpShift (num / den)) := by
    rw [← Nat.div_div_eq_div_mul]
    exact ulpShift_spec _
  have hgap := double_gap v _ _ hv hk
  unfold roundNearestEven
  simp only
  generalize ulpShift (num / den) = sh at hgap ⊢
  have hdm : den * 2 ^ sh * (num / (den * 2 ^ sh)) + num % (den * 2 ^ sh) = num :=
    Nat.div_add_mod num (den * 2 ^ sh)
  have hlow : num / (den * 2 ^ sh) * 2 ^ sh * den = den * 2 ^ sh * (num / (den * 2 ^ sh)) := by
    ring
  have hhigh : (num / (den * 2 ^ sh) + 1) * 2 ^ sh * den =
      den * 2 ^ sh * (num / (den * 2 ^ sh)) + den * 2 ^ sh := by
    ring
  have hgap2 : v * den ≤ den * 2 ^ sh * (num / (den * 2 ^ sh)) ∨
      den * 2 ^ sh * (num / (den * 2 ^ sh)) + den * 2 ^ sh ≤ v * den := by
    rcases hgap with h | h
    · left
      rw [← hlow]
      exact Nat.mul_le_mul_right den h
    · right
      rw [← hhigh]
      exact Nat.mul_le_mul_right den h
  have hr : den = 0 ∨ num % (den * 2 ^ sh) < den * 2 ^ sh := by
    rcases Nat.eq_zero_or_pos den with h | h
    · exact Or.inl h
    · exact Or.inr (Nat.mod_lt _ (Nat.mul_pos h (Nat.two_pow_pos sh)))
  rcases hr with hz | hr
  · subst hz
    simp [Nat.dist]
  · simp only [Nat.dist]
    split_ifs with h1 h2 h3
    · rw [hlow]
      generalize den * 2 ^ sh * (num / (den * 2 ^ sh)) = a at *
      generalize den * 2 ^ sh = u at *
      generalize v * den = x at *
      omega
    · rw [hhigh]
      generalize den * 2 ^ sh * (num / (den * 2 ^ sh)) = a at *
      generalize den * 2 ^ sh = u at *
      generalize v * den = x at *
      omega
    · rw [hlow]
      generalize den * 2 ^ sh * (num / (den * 2 ^ sh)) = a at *
      generalize den * 2 ^ sh = u at *
      generalize v * den = x at *
      omega
    · rw [hhigh]
      generalize den * 2 ^ sh * (num / (den * 2 ^ sh)) = a at *
      generalize den * 2 ^ sh = u at *
      generalize v * den = x at *
      omega

theorem mul100_correctly_rounded (s : F64) (hs : s ≤ F64.one) :
    isDouble (mul100 s) ∧
    ∀ v, isDouble v → Nat.dist (mul100 s) (s * 100) ≤ Nat.dist v (s * 100) := by
  constructor
  · apply roundNearestEven_isDouble
    unfold F64.one at hs
    rw [Nat.div_one]
    calc s * 100 ≤ 2 ^ 1074 * 100 := Nat.mul_le_mul_right 100 hs
      _ < 2 ^ 1074 * 2 ^ 1026 := Nat.mul_lt_mul_of_pos_left (by decide) (Nat.two_pow_pos _)
      _ = 2 ^ 2100 := (Nat.pow_add 2 1074 1026).symm
  · intro v hv
    have h := roundNearestEven_nearest (s * 100) 1 v hv
    simpa [mul100] using h

theorem roundNearestEven_tie_even (num den : Nat)
    (htie : 2 * (num % (den * 2 ^ ulpShift (num / den))) = den * 2 ^ ulpShift (num / den)) :
    (roundNearestEven num den / 2 ^ ulpShift (num / den)) % 2 = 0 := by
  unfold roundNearestEven
  simp only
  have hP : 0 < 2 ^ ulpShift (num / den) := Nat.two_pow_pos _
  split_ifs with h1 h2 h3
  · exact absurd htie (Nat.ne_of_lt h1)
  · exact absurd htie.symm (Nat.ne_of_lt h2)
  · rw [Nat.mul_div_cancel _ hP]
    exact h3
  · rw [Nat.mul_div_cancel _ hP]
    exact Nat.succ_mod_two_eq_zero_iff.mpr (Nat.mod_two_ne_zero.mp h3)

/-! ## Percentages -/

theorem roundNearestEven_le (num m : Nat) (hle : num ≤ m * 2 ^ ulpShift num) :
    roundNearestEven num 1 ≤ m * 2 ^ ulpShift num := by
  unfold roundNearestEven
  simp only [Nat.div_one, Nat.one_mul]
  generalize ulpShift num = sh at hle ⊢
  have hP : 0 < 2 ^ sh := Nat.two_pow_pos sh
  generalize 2 ^ sh = P at hle hP ⊢
  have hdm : P * (num / P) + num % P = num := Nat.div_add_mod num P
  have hk : num / P * P ≤ m * P := le_trans (Nat.div_mul_le_self num P) hle
  have hup : ¬ 2 * (num % P) < P → (num / P + 1) * P ≤ m * P := by
    intro hr
    have hr1 : 1 ≤ num % P := by omega
    have hlt : num / P * P < m * P := by
      have : num / P * P < num := by
        have := Nat.mul_comm P (num / P)
        omega
      omega
    have hkm : num / P < m := Nat.lt_of_mul_lt_mul_right hlt
    exact Nat.mul_le_mul_right P hkm
  split_ifs with h1 h2 h3
  · exact hk
  · exact hup h1
  · exact hk
  · exact hup h1

theorem roundNearestEven_mul100_le (s e : Nat) (he : 1028 ≤ e) (h : s ≤ 2 ^ e) :
    roundNearestEven (s * 100) 1 ≤ 100 * 2 ^ e := by
  have hle : s * 100 ≤ 100 * 2 ^ e := by
    rw [Nat.mul_comm 100]
    exact Nat.mul_le_mul_right 100 h
  have hsh : ulpShift (s * 100) ≤ e := by
    rcases ulpShift_spec (s * 100) with h0 | h1
    · omega
    · have hP : 0 < 2 ^ ulpShift (s * 100) := Nat.two_pow_pos _
      have h2 : 2 ^ 52 * 2 ^ ulpShift (s * 100) ≤ s * 100 :=
        (Nat.le_div_iff_mul_le hP).mp h1
      have h7 : 100 * 2 ^ e < 2 ^ 7 * 2 ^ e :=
        Nat.mul_lt_mul_of_pos_right (by decide) (Nat.two_pow_pos e)
      rw [← Nat.pow_add] at h2 h7
      have h4 : 2 ^ (52 + ulpShift (s * 100)) < 2 ^ (7 + e) :=
        lt_of_le_of_lt (le_trans h2 hle) h7
      have h5 := (Nat.pow_lt_pow_iff_right (by decide : 1 < 2)).mp h4
      omega
  have hsplit : 100 * 2 ^ e = (100 * 2 ^ (e - ulpShift (s * 100))) * 2 ^ ulpShift (s * 100) := by
    rw [Nat.mul_assoc, ← Nat.pow_add, Nat.sub_add_cancel hsh]
  rw [hsplit]
  apply roundNearestEven_le
  rw [← hsplit]
  exact hle

theorem mul100_le_hundred (s : F64) (h : s ≤ F64.one) : mul100 s ≤ 100 * F64.one := by
  unfold F64.one at h ⊢
  unfold mul100
  exact roundNearestEven_mul100_le s 1074 (by decide) h

theorem round_half_up_bounds (x U V : Nat) (hV : 0 < V) (hU : U = V * 2) (hx : x ≤ 100 * U) :
    (10 * x + V) / U ≤ 1000 ∧ (10 * x + V) / U * U ≤ 10 * x + V ∧
    10 * x + V < ((10 * x + V) / U + 1) * U := by
  have hUpos : 0 < U := by omega
  refine ⟨?_, Nat.div_mul_le_self _ _, ?_⟩
  · have hlt : 10 * x + V < 1001 * U := by omega
    have := (Nat.div_lt_iff_lt_mul hUpos).mpr hlt
    omega
  · have hlt := Nat.lt_mul_div_succ (10 * x + V) hUpos
    rwa [Nat.mul_comm U] at hlt

theorem numberToString_digit : ∀ d < 10, numberToString d = [48 + d] := by decide

theorem append_split_around (a x pc rest badge close : JSString) :
    ∃ pre post, a ++ x ++ (pc ++ rest) ++ badge ++ close = pre ++ x ++ pc ++ post :=
  ⟨a, rest ++ badge ++ close, by simp only [List.append_assoc]⟩

theorem topCardHTML_confidence (data : AnalysisResponse) :
    ∃ pre post, topCardHTML data =
      pre ++ toFixed1 (mul100 (topEmotionOf data).confidence) ++ lit "% Confidence" ++ post := by
  have hsplit : lit "% Confidence
                                </span>
                                " =
      lit "% Confidence" ++ lit "
                                </span>
                                " := by decide
  unfold topCardHTML
  rw [hsplit]
  exact append_split_around _ _ _ _ _ _

/-- C8, at the score `0.0315`, the double `0x1.020c49ba5e354p-5`, which lies in
`[0, 1]`: the exact product `100 * s` is larger than `3.15`, so its decimal numeral
rounded to one decimal place is `3.2`, but the double product `s * 100` is the
double just below `3.15`, and the row shows `3.1%`. -/
theorem percentage_of_rounded_product_differs :
    ofDecimal 315 10000 = 0x1020c49ba5e354 * 2 ^ 1017 ∧
    ofDecimal 315 10000 ≤ F64.one ∧
    315 * 2 ^ 1074 < 100 * (100 * ofDecimal 315 10000) ∧
    exactPercent (ofDecimal 315 10000) ++ lit "%" = lit "3.2%" ∧
    (renderRow (lit "joy") (lit "joy", ofDecimal 315 10000)).percentage ++ lit "%" = lit "3.1%" ∧
    (renderRow (lit "joy") (lit "joy", ofDecimal 315 10000)).percentage ≠
      exactPercent (ofDecimal 315 10000) := by decide

/-- C8, amended. For every score `s` in `[0, 1]` the percentage of a row, and in the
same way that of the top card, is computed from the double product `s * 100`: a
double nearest to the exact product. With `n` the integer nearest to ten times that
double (the larger one on a tie), which is at most 1000, the text is the decimal
numeral of `n / 10`, a point and the single digit `n % 10`, to which the template
appends `%`. It is a function of `s` alone. The score `0.827` is shown as `82.7%`
and `0.91` as `91.0%`. The markup of a row shows its percentage followed by `%`, and
`displayResults` assigns the top card and the rows to the results container. -/
theorem percentage_of_double_product (topLabel label : JSString) (s : F64) (hs : s ≤ F64.one) :
    (renderRow topLabel (label, s)).percentage = toFixed1 (mul100 s) ∧
    (∀ data : AnalysisResponse, ∃ pre post, topCardHTML data =
      pre ++ toFixed1 (mul100 (topEmotionOf data).confidence) ++ lit "% Confidence" ++ post) ∧
    isDouble (mul100 s) ∧
    (∀ v, isDouble v → Nat.dist (mul100 s) (s * 100) ≤ Nat.dist v (s * 100)) ∧
    (∃ n, n ≤ 1000 ∧
      n * 2 ^ 1074 ≤ 10 * mul100 s + 2 ^ 1073 ∧ 10 * mul100 s + 2 ^ 1073 < (n + 1) * 2 ^ 1074 ∧
      toFixed1 (mul100 s) ++ lit "%" =
        numberToString (n / 10) ++ lit "." ++ [48 + n % 10] ++ lit "%") ∧
    toFixed1 (mul100 (ofDecimal 827 1000)) ++ lit "%" = lit "82.7%" ∧
    toFixed1 (mul100 (ofDecimal 91 100)) ++ lit "%" = lit "91.0%" ∧
    (∀ r : Row, ∃ pre mid post, Row.html r =
      pre ++ capitalize r.emotion ++ mid ++ r.percentage ++ lit "%" ++ post) ∧
    (∀ (now : JSString) (data : AnalysisResponse) (st : Page) (c l t : JSString),
      st.resultsContainer = some c → (topEmotionOf data).label = some l → data.text = some t →
      displayResults now data st =
        .ok { st with
          resultsContainer := some (topCardHTML data ++
            ((displayRows data).map Row.html).flatten ++ originalTextOpenHTML ++ escapeHtml t ++
            originalTextCloseHTML now t data.emojis_found) }) := by
  have hx := mul100_le_hundred s hs
  unfold F64.one at hx
  have hb := round_half_up_bounds (mul100 s) (2 ^ 1074) (2 ^ 1073) (Nat.two_pow_pos _)
    (Nat.pow_succ 2 1073) hx
  have hr := mul100_correctly_rounded s hs
  refine ⟨rfl, topCardHTML_confidence, hr.1, hr.2,
    ⟨(10 * mul100 s + 2 ^ 1073) / 2 ^ 1074, hb.1, hb.2.1, hb.2.2, ?_⟩, by decide, by decide,
    Row_html_shows, fun now data st c l t hc hl ht => displayResults_assigns now data st c l t hc hl ht⟩
  unfold toFixed1
  simp only
  rw [numberToString_digit _ (Nat.mod_lt _ (by decide))]

/-! ## Instances of the theorems at concrete inputs -/

/-- The text ` a ` has trimmed length 1: no request, and the placeholder stays. -/
theorem short_input_issues_no_request_witness :
    (examplePage (lit " a ") 0).textInput = some ⟨lit " a ", 0, 0, false, [], true⟩ ∧
    (trim (lit " a ")).length < 3 ∧
    (analyzeBegin (examplePage (lit " a ") 0)).2 = none ∧
    (analyzeText [] (.transportFailure []) (examplePage (lit " a ") 0)).requests = [] ∧
    (analyzeText [] (.transportFailure []) (examplePage (lit " a ") 0)).resultsContainer =
      some emptyStateHTML :=
  have h := short_input_issues_no_request [] (.transportFailure []) (examplePage (lit " a ") 0)
    ⟨lit " a ", 0, 0, false, [], true⟩ rfl (by decide)
  ⟨rfl, by decide, h.1, h.2.1, h.2.2.1⟩

/-- The example response on the example page: the rows reach the results container. -/
theorem rows_sorted_by_descending_score_witness :
    responseOk 200 = true ∧ exampleResponse.success = true ∧
    (analyzeComplete [] (.payload 200 exampleResponse) (examplePage [] 0)).resultsContainer =
      some (topCardHTML exampleResponse ++ ((displayRows exampleResponse).map Row.html).flatten ++
        originalTextOpenHTML ++ escapeHtml (lit "I'm absolutely thrilled! 😄🎉") ++
        originalTextCloseHTML [] (lit "I'm absolutely thrilled! 😄🎉")
          exampleResponse.emojis_found) :=
  ⟨by decide, rfl, (rows_sorted_by_descending_score [] 200 exampleResponse (examplePage [] 0)
    emptyStateHTML (lit "joy") (lit "I'm absolutely thrilled! 😄🎉") (by decide) rfl rfl rfl
    rfl).2.2.1⟩

/-- The example response has one row that carries the marker. -/
theorem top_marker_exactly_once_witness :
    exampleResponse.top_emotion = some ⟨some (lit "joy"), ofDecimal 91 100⟩ ∧
    (∀ k ∈ [lit "joy", lit "surprise", lit "neutral"], markerGlyph ∉ k) ∧
    ((displayRows exampleResponse).filter
      fun r => decide (topMarker <:+: Row.html r)).length = 1 :=
  ⟨rfl, by decide, (top_marker_exactly_once [] exampleResponse (examplePage [] 0)
    ⟨some (lit "joy"), ofDecimal 91 100⟩ (lit "joy") emptyStateHTML
    (lit "I'm absolutely thrilled! 😄🎉")
    [(lit "joy", ofDecimal 91 100), (lit "surprise", ofDecimal 5 100),
      (lit "neutral", ofDecimal 4 100)] rfl rfl rfl (by decide) (by decide) (by decide) rfl
    rfl).2.1⟩

/-- The text `<b>` of a response on the example page. -/
theorem original_text_is_escaped_witness :
    (examplePage [] 0).resultsContainer = some emptyStateHTML ∧
    decodeEntities (escapeHtml (lit "<b>")) = lit "<b>" ∧
    0x3C ∉ escapeHtml (lit "<b>") :=
  have h := original_text_is_escaped [] { exampleResponse with text := some (lit "<b>") }
    (examplePage [] 0) emptyStateHTML (lit "joy") (lit "<b>") rfl rfl rfl
  ⟨rfl, h.2.2.2.2.2.1, h.2.2.1⟩

/-- The failure example of the specification: the control is enabled again and the
indicator hidden. -/
theorem cleanup_on_every_outcome_witness :
    3 ≤ (trim (lit "I am happy")).length ∧
    (∃ b1, (analyzeBegin (examplePage (lit "I am happy") 0)).1.analyzeBtn = some b1 ∧
      b1.disabled = true) ∧
    (∃ b2, (analyzeText [] (.payload 200 (failedPayload none (some (lit "text too long"))))
        (examplePage (lit "I am happy") 0)).analyzeBtn = some b2 ∧ b2.disabled = false) ∧
    (analyzeText [] (.payload 200 (failedPayload none (some (lit "text too long"))))
        (examplePage (lit "I am happy") 0)).loadingSpinner = some (lit "none") :=
  have h := cleanup_on_every_outcome []
    (.payload 200 (failedPayload none (some (lit "text too long"))))
    (examplePage (lit "I am happy") 0) ⟨lit "I am happy", 0, 0, false, [], true⟩
    ⟨false, lit "<i class=\"fas fa-brain\"></i> Analyze Emotions"⟩ (lit "none")
    rfl (by decide) rfl rfl
  ⟨by decide, h.1, h.2.2.2.1, h.2.2.2.2.1⟩

/-- Clearing a page that shows the error panel. -/
theorem clearText_resets_witness :
    (showError (lit "Analysis failed") (examplePage (lit "some text") 0)).textInput =
      some ⟨lit "some text", 0, 0, false, [], true⟩ ∧
    (clearText (showError (lit "Analysis failed") (examplePage (lit "some text") 0))).textInput.map
      TextInput.value = some [] ∧
    (clearText (showError (lit "Analysis failed")
      (examplePage (lit "some text") 0))).resultsContainer =
      (showError (lit "Analysis failed")
        (examplePage (lit "some text") 0)).resultsContainer.map (fun _ => emptyStateHTML) :=
  have h := (clearText_resets (showError (lit "Analysis failed")
    (examplePage (lit "some text") 0))).1 ⟨lit "some text", 0, 0, false, [], true⟩ rfl
  ⟨rfl, h.1, h.2.1⟩

/-- Inserting an emoji of two code units between `a` and `b`. -/
theorem insertEmoji_at_caret_witness :
    1 ≤ (lit "ab").length ∧ (0x0D ∉ lit "ab" ∧ 0x0D ∉ lit "😄") ∧
    ∃ t1, (insertEmoji true (lit "😄") (examplePage (lit "ab") 1)).textInput = some t1 ∧
      t1.value = (lit "ab").take 1 ++ lit "😄" ++ (lit "ab").drop 1 ∧
      t1.selectionStart = 1 + (lit "😄").length ∧ t1.selectionEnd = 1 + (lit "😄").length ∧
      t1.value.take 1 = (lit "ab").take 1 ∧
      t1.value.drop (1 + (lit "😄").length) = (lit "ab").drop 1 :=
  ⟨by decide, by decide,
    insertEmoji_at_caret (examplePage (lit "ab") 1) ⟨lit "ab", 1, 1, false, [], true⟩
      (lit "😄") 1 rfl rfl rfl (by decide) (by decide) (fun h => absurd h (by decide))⟩

/-- The score `0.827`. -/
theorem percentage_of_double_product_witness :
    ofDecimal 827 1000 ≤ F64.one ∧
    (renderRow (lit "joy") (lit "joy", ofDecimal 827 1000)).percentage =
      toFixed1 (mul100 (ofDecimal 827 1000)) :=
  ⟨by decide, (percentage_of_double_product (lit "joy") (lit "joy") (ofDecimal 827 1000)
    (by decide)).1⟩

/-! ## Absent elements -/

theorem showLoading_remove (b : Bool) (st : Page) (e : Element) :
    showLoading b (st.remove e) = (showLoading b st).remove e := by
  cases e <;> simp [showLoading, Page.remove]

theorem showError_remove (m : JSString) (st : Page) (e : Element) :
    showError m (st.remove e) = (showError m st).remove e := by
  cases e <;> simp [showError, Page.remove]

theorem showEmptyState_remove (st : Page) (e : Element) :
    showEmptyState (st.remove e) = (showEmptyState st).remove e := by
  cases e <;> simp [showEmptyState, Page.remove]

theorem showNotification_remove (m k : JSString) (st : Page) (e : Element) :
    showNotification m k (st.remove e) = (showNotification m k st).remove e := by
  cases e <;> simp [showNotification, Page.remove]

theorem clearText_remove (st : Page) (e : Element) (he : e ≠ .textInput) :
    clearText (st.remove e) = (clearText st).remove e := by
  cases e <;> first
    | exact absurd rfl he
    | (cases h : st.textInput <;>
        simp [clearText, Page.remove, h, showNotification, showEmptyState])

theorem displayResults_remove (now : JSString) (data : AnalysisResponse) (st : Page)
    (e : Element) (he : e ≠ .resultsContainer) :
    displayResults now data (st.remove e) = (displayResults now data st).map (·.remove e) := by
  cases e <;> first
    | exact absurd rfl he
    | (cases h : st.resultsContainer <;> cases hr : resultsHTML now data <;>
        simp [displayResults, Page.remove, h, hr, Except.map])

theorem tryBlock_cases (now : JSString) (o : Outcome) :
    (∃ m, ∀ st, tryBlock now o st = .error m) ∨
    (∃ data, ∀ st, tryBlock now o st = displayResults now data st) := by
  cases o with
  | transportFailure m => exact Or.inl ⟨m, fun _ => rfl⟩
  | undecodable s m => exact Or.inl ⟨m, fun _ => rfl⟩
  | nullBody s =>
    cases h : responseOk s
    · exact Or.inl ⟨lit "Cannot read properties of null (reading \x27error\x27)",
        fun _ => by simp [tryBlock, h]⟩
    · exact Or.inl ⟨lit "Cannot read properties of null (reading \x27success\x27)",
        fun _ => by simp [tryBlock, h]⟩
  | payload s data =>
    cases h : responseOk s
    · exact Or.inl
        ⟨jsOr data.error (jsOr data.message (lit "Server error: " ++ numberToString s)),
          fun _ => by simp [tryBlock, h]⟩
    · cases hs : data.success
      · exact Or.inl ⟨jsOr data.message (lit "Analysis failed"),
          fun _ => by simp [tryBlock, h, hs]⟩
      · exact Or.inr ⟨data, fun _ => by simp [tryBlock, h, hs]⟩

theorem analyzeComplete_remove (now : JSString) (o : Outcome) (st : Page) (e : Element) :
    analyzeComplete now o (st.remove e) = (analyzeComplete now o st).remove e := by
  rcases tryBlock_cases now o with ⟨m, hm⟩ | ⟨data, hd⟩
  · simp only [analyzeComplete, hm, showError_remove, showLoading_remove]
  · simp only [analyzeComplete, hd]
    cases e <;> cases h : st.resultsContainer <;> cases hr : resultsHTML now data <;>
      simp [displayResults, Page.remove, h, hr, showLoading, showError]

theorem analyzeBegin_remove (st : Page) (e : Element) (he : e ≠ .textInput) :
    analyzeBegin (st.remove e) = ((analyzeBegin st).1.remove e, (analyzeBegin st).2) := by
  cases e <;> first
    | exact absurd rfl he
    | (cases h : st.textInput with
       | none => simp [analyzeBegin, Page.remove, h, showError]
       | some t =>
         simp only [analyzeBegin, Page.remove, h]
         split
         · simp [showNotification]
         · split <;> simp [showNotification, showLoading, h])

theorem analyzeText_remove (now : JSString) (o : Outcome) (st : Page) (e : Element)
    (he : e ≠ .textInput) :
    analyzeText now o (st.remove e) = (analyzeText now o st).remove e := by
  unfold analyzeText
  rw [analyzeBegin_remove st e he]
  cases hb : analyzeBegin st with
  | mk st1 r =>
    cases r with
    | none => rfl
    | some q => exact analyzeComplete_remove now o st1 e

theorem analyzeText_without_textInput (now : JSString) (o : Outcome) (st : Page)
    (h : st.textInput = none) :
    analyzeText now o st = showError (lit "Text input element not found") st ∧
    (analyzeBegin st).2 = none := by
  simp [analyzeText, analyzeBegin, h]

theorem showLoading_has (b : Bool) (st : Page) (e : Element) :
    (showLoading b st).has e = st.has e := by
  cases e <;> simp [showLoading, Page.has]

theorem showError_has (m : JSString) (st : Page) (e : Element) :
    (showError m st).has e = st.has e := by
  cases e <;> simp [showError, Page.has]

theorem showEmptyState_has (st : Page) (e : Element) :
    (showEmptyState st).has e = st.has e := by
  cases e <;> simp [showEmptyState, Page.has]

theorem clearText_has (st : Page) (e : Element) : (clearText st).has e = st.has e := by
  cases h : st.textInput <;> cases e <;>
    simp [clearText, h, Page.has, showNotification, showEmptyState]

theorem displayResults_has (now : JSString) (data : AnalysisResponse) (st st1 : Page)
    (e : Element) (h : displayResults now data st = .ok st1) : st1.has e = st.has e := by
  unfold displayResults at h
  split at h
  · cases h; rfl
  · next c hc =>
    split at h
    · cases h
    · cases h
      cases e <;> simp [Page.has, hc]

theorem analyzeComplete_has (now : JSString) (o : Outcome) (st : Page) (e : Element) :
    (analyzeComplete now o st).has e = st.has e := by
  rcases tryBlock_cases now o with ⟨m, hm⟩ | ⟨data, hd⟩
  · simp only [analyzeComplete, hm, showLoading_has, showError_has]
  · simp only [analyzeComplete, hd]
    cases hr : displayResults now data st with
    | ok st1 =>
      simp only [showLoading_has]
      exact displayResults_has now data st st1 e hr
    | error m => simp only [showLoading_has, showError_has]

theorem analyzeText_has (now : JSString) (o : Outcome) (st : Page) (e : Element) :
    (analyzeText now o st).has e = st.has e := by
  have hbegin : (analyzeBegin st).1.has e = st.has e := by
    cases h : st.textInput with
    | none => simp [analyzeBegin, h, showError_has]
    | some t =>
      simp only [analyzeBegin, h]
      split
      · cases e <;> simp [Page.has, showNotification, h]
      · split
        · cases e <;> simp [Page.has, showNotification]
        · cases e <;> simp [Page.has, showLoading]
  unfold analyzeText
  cases hb : analyzeBegin st with
  | mk st1 r =>
    rw [hb] at hbegin
    cases r with
    | none => exact hbegin
    | some q =>
      simp only
      rw [analyzeComplete_has]
      exact hbegin

/-- C11, at a page with every element but the text field, showing the placeholder:
`analyzeText`, also when triggered by Ctrl+Enter after the initialisation, calls
`showError`, so that the results container is changed and shows the error panel
with the message `Text input element not found`. -/
theorem missing_text_input_is_shown_as_error :
    pageWithoutTextInput.textInput = none ∧
    pageWithoutTextInput.resultsContainer = some emptyStateHTML ∧
    (analyzeText [] (.transportFailure []) pageWithoutTextInput).resultsContainer =
      some (errorPanelHTML (lit "Text input element not found")) ∧
    (analyzeText [] (.transportFailure []) pageWithoutTextInput).resultsContainer ≠
      pageWithoutTextInput.resultsContainer ∧
    (dispatch [] (.transportFailure []) (construct pageWithoutTextInput)
      .ctrlEnter).1.resultsContainer ≠ pageWithoutTextInput.resultsContainer := by decide!

/-- C11, amended. For every page, whichever of the six elements it lacks, and every
element `e`: the initialisation and each operation leave the presence of `e` as it
is, and act on the page without `e` as on the page with `e`, less `e` (for
`displayResults` with `e` other than the results container, for `clearText` and
`analyzeText` with `e` other than the text field). A listener is bound exactly when
its element is there, the `keydown` listener always, so the event of an absent
control changes nothing. Without the results container `showError`,
`showEmptyState` and `displayResults` change nothing; `displayResults` returns
normally exactly when the container is absent or the payload has a top label and a
text, so that no absent element makes it raise.
Without the text field `clearText` changes nothing, and `analyzeText` issues no
request and is `showError` with the message `Text input element not found`: the
results container, when present, then shows the error panel. -/
theorem absent_elements_are_tolerated (now m : JSString) (outcome : Outcome)
    (data : AnalysisResponse) (b : Bool) (st : Page) (e : Element) :
    ((construct st).page.has e = st.has e ∧
      (construct (st.remove e)).page = (construct st).page.remove e ∧
      (construct st).listeners =
        ⟨st.has .analyzeBtn, st.has .clearBtn, st.has .historyBtn, st.has .textInput, true⟩) ∧
    ((st.has .analyzeBtn = false →
        dispatch now outcome (construct st) .analyzeClick = ((construct st).page, none)) ∧
      (st.has .clearBtn = false →
        dispatch now outcome (construct st) .clearClick = ((construct st).page, none)) ∧
      (st.has .historyBtn = false →
        dispatch now outcome (construct st) .historyClick = ((construct st).page, none))) ∧
    ((showLoading b st).has e = st.has e ∧ (showError m st).has e = st.has e ∧
      (showEmptyState st).has e = st.has e ∧ (clearText st).has e = st.has e ∧
      (analyzeText now outcome st).has e = st.has e ∧
      (∀ st1, displayResults now data st = .ok st1 → st1.has e = st.has e)) ∧
    (showLoading b (st.remove e) = (showLoading b st).remove e ∧
      showError m (st.remove e) = (showError m st).remove e ∧
      showEmptyState (st.remove e) = (showEmptyState st).remove e ∧
      (e ≠ .resultsContainer →
        displayResults now data (st.remove e) =
          (displayResults now data st).map (fun p => p.remove e)) ∧
      (e ≠ .textInput → clearText (st.remove e) = (clearText st).remove e) ∧
      (e ≠ .textInput →
        analyzeText now outcome (st.remove e) = (analyzeText now outcome st).remove e)) ∧
    ((st.has .resultsContainer = false →
        showError m st = st ∧ showEmptyState st = st ∧ displayResults now data st = .ok st) ∧
      ((∃ st1, displayResults now data st = .ok st1) ↔
        (st.has .resultsContainer = false ∨
          ((topEmotionOf data).label.isSome = true ∧ data.text.isSome = true)))) ∧
    (st.has .textInput = false →
      clearText st = st ∧ (analyzeBegin st).2 = none ∧
      analyzeText now outcome st = showError (lit "Text input element not found") st ∧
      (analyzeText now outcome st).requests = st.requests ∧
      (analyzeText now outcome st).resultsContainer =
        st.resultsContainer.map fun _ => errorPanelHTML (lit "Text input element not found")) := by
  refine ⟨⟨?_, ?_, ?_⟩, ⟨?_, ?_, ?_⟩,
    ⟨showLoading_has b st e, showError_has m st e, showEmptyState_has st e, clearText_has st e,
      analyzeText_has now outcome st e, fun st1 h => displayResults_has now data st st1 e h⟩,
    ⟨showLoading_remove b st e, showError_remove m st e, showEmptyState_remove st e,
      displayResults_remove now data st e, clearText_remove st e,
      analyzeText_remove now outcome st e⟩, ⟨?_, ?_⟩, ?_⟩
  · cases e <;> simp [construct, bindEvents, Page.has]
  · cases e <;> simp [construct, bindEvents, Page.remove]
  · simp [construct, bindEvents, Page.has]
  · intro h
    simp only [Page.has] at h
    simp [dispatch, construct, bindEvents, h]
  · intro h
    simp only [Page.has] at h
    simp [dispatch, construct, bindEvents, h]
  · intro h
    simp only [Page.has] at h
    simp [dispatch, construct, bindEvents, h]
  · intro h
    have hc : st.resultsContainer = none := by
      simpa [Page.has] using h
    refine ⟨?_, ?_, ?_⟩
    · cases st
      simp_all [showError]
    · cases st
      simp_all [showEmptyState]
    · simp [displayResults, hc]
  · cases hc : st.resultsContainer with
    | none => simp [displayResults, hc, Page.has]
    | some c =>
      cases hlab : (topEmotionOf data).label with
      | none => simp [displayResults, hc, resultsHTML, hlab, Page.has]
      | some l =>
        cases htx : data.text with
        | none => simp [displayResults, hc, resultsHTML, hlab, htx, Page.has]
        | some t => simp [displayResults, hc, resultsHTML, hlab, htx, Page.has]
  · intro h
    have ht : st.textInput = none := by
      simpa [Page.has] using h
    obtain ⟨h1, h2⟩ := analyzeText_without_textInput now outcome st ht
    refine ⟨by simp [clearText, ht], h2, h1, ?_, ?_⟩
    · rw [h1]; rfl
    · rw [h1]; rfl

/-- The page without the text field, for the failure example of the specification. -/
theorem absent_elements_are_tolerated_witness :
    Element.analyzeBtn ≠ Element.textInput ∧
    pageWithoutTextInput.has .textInput = false ∧
    analyzeText [] (.transportFailure [])
        (pageWithoutTextInput.remove .analyzeBtn) =
      (analyzeText [] (.transportFailure []) pageWithoutTextInput).remove .analyzeBtn ∧
    (analyzeBegin pageWithoutTextInput).2 = none ∧
    clearText pageWithoutTextInput = pageWithoutTextInput :=
  have h := absent_elements_are_tolerated [] [] (.transportFailure [])
    (failedPayload none none) false pageWithoutTextInput .analyzeBtn
  ⟨by decide, by decide, h.2.2.2.1.2.2.2.2.2 (by decide),
    (h.2.2.2.2.2 (by decide)).2.1, (h.2.2.2.2.2 (by decide)).1⟩

end EmojiAnalyzer
